import Mathlib

/-!
# Study-session orchestrator of `react/frontend/App.js`

A shallow embedding of the `App` component's review flow: the countdown
(`startTimer`, `stopTimer`, `resetTimer` and the interval callback), the
session handlers (`startStudySession`, `endStudySession`), the card handlers
(`getNextCard`, `handleReview`) and the navigation guard (`handleNavigation`,
`endAndSaveSession`).

## Execution model

`App` is a React function component.  Every handler is created by one render
and reads the state variables of *that* render (its closure); a setter call
does not change what the running handler reads, it changes the state the next
render sees.  A handler is therefore a function of two things:

* `snap : AppState`, the state of the render that created the handler, from
  which every state variable the handler mentions is read;
* `w : World`, the world at the moment the handler (or its continuation after
  an `await`) runs, to which the setter calls and the browser calls
  (`setInterval`, `clearInterval`, `alert`, `axios`) are applied in order.

For a handler run by a click with nothing in between, `snap = w.st`.  The
functional update `setTimer(prev => ...)` of the interval callback is the one
place where the source reads the current value, and is modelled so.

The setter calls of one continuation (a click handler, or the part of an
`async` handler between two `await`s) are applied together and followed by one
render; the effect of lines 272-278 runs after a render in which `view`
changed, with the functions of that render.

The answers of the service and of the host bridge are inputs.  State the
claims do not touch (`decks`, `deck`, the editor fields, `sessions`, the
statistics selectors) is left out.
-/

namespace Flashcards

/-! ## Data model -/

/-- The values of `view` (line 159). -/
inductive View
  | decks
  | add
  | review
  | stats
  | manage
  deriving DecidableEq, Repr

/-- A card as delivered by the service in `next_card`. -/
structure Card where
  id : Nat
  front : String
  back : String
  deriving DecidableEq, Repr

/-- A session as delivered by the service in `session`. -/
structure Session where
  id : Nat
  name : String
  deriving DecidableEq, Repr

/-- The `useState` variables of `App` (lines 157-181) used by the review flow. -/
structure AppState where
  currentDeck : Option String
  view : View
  reviewCard : Option Card
  showBack : Bool
  rating : Int
  isModalOpen : Bool
  timer : Int
  isTimerRunning : Bool
  timerInterval : Option Nat
  currentSession : Option Session
  deriving DecidableEq, Repr

/-- The requests `axios` sends, by endpoint. -/
inductive Request
  | createSession (deck : String) (name : Option String)
  | endSession (id : Nat)
  | listSessions (deck : Option String)
  | nextCard (deck : String)
  | review (deck : Option String) (cardId : Nat) (rating : Int) (sessionId : Option Nat)
  | sessionsEnd (sessionId : Nat)
  deriving DecidableEq, Repr

/-- The calls made on the host bridge `window.electronAPI`. -/
inductive HostCall
  | checkActiveSession
  | confirmNavigation
  | endSession
  deriving DecidableEq, Repr

/-- The component state together with what the browser holds: the intervals
created by `setInterval` and not yet cleared, the next interval id, and the
logs of requests sent, messages shown by `alert`, host-bridge calls made and
of the times the countdown opened the time-is-up modal. -/
structure World where
  st : AppState
  live : List Nat
  nextId : Nat
  requests : List Request
  alerts : List String
  hostCalls : List HostCall
  expiries : Nat
  deriving DecidableEq, Repr

/-- The state of the first render (the `useState` initial values). -/
def initState : AppState :=
  { currentDeck := none, view := View.decks, reviewCard := none, showBack := false,
    rating := 10, isModalOpen := false, timer := 60, isTimerRunning := false,
    timerInterval := none, currentSession := none }

/-- The world at mount: no interval, nothing logged; interval ids start at 1. -/
def initWorld : World :=
  { st := initState, live := [], nextId := 1, requests := [], alerts := [],
    hostCalls := [], expiries := 0 }

/-! ## JavaScript values -/

/-- Truthiness of a string-or-null value: `null` and the empty string are falsy. -/
def truthyStr : Option String → Bool
  | some s => s != ""
  | none => false

/-- Truthiness of a number-or-null value: `null` and `0` are falsy. -/
def truthyNum : Option Nat → Bool
  | some n => n != 0
  | none => false

/-- The value of `x || d` for a string-or-undefined `x`. -/
def orDefault (x : Option String) (d : String) : String :=
  if truthyStr x then x.getD d else d

/-- The method `String.prototype.includes`. -/
def includes (s pat : String) : Bool :=
  s.toList.tails.any (fun t => pat.toList.isPrefixOf t)

/-! ## Setters and browser calls -/

/-- The call `alert(msg)`. -/
def alert (msg : String) (w : World) : World :=
  { w with alerts := w.alerts ++ [msg] }

/-- A request handed to `axios`. -/
def send (r : Request) (w : World) : World :=
  { w with requests := w.requests ++ [r] }

/-- A call on `window.electronAPI`. -/
def hostCall (c : HostCall) (w : World) : World :=
  { w with hostCalls := w.hostCalls ++ [c] }

/-- The call `clearInterval(h)`. -/
def clearInterval (h : Nat) (w : World) : World :=
  { w with live := w.live.filter (fun i => i != h) }

/-- The setter `setView`. -/
def setView (v : View) (w : World) : World :=
  { w with st := { w.st with view := v } }

/-- The setter `setTimer` called with a value. -/
def setTimer (t : Int) (w : World) : World :=
  { w with st := { w.st with timer := t } }

/-- The setter `setIsTimerRunning`. -/
def setIsTimerRunning (b : Bool) (w : World) : World :=
  { w with st := { w.st with isTimerRunning := b } }

/-- The setter `setTimerInterval`. -/
def setTimerInterval (h : Option Nat) (w : World) : World :=
  { w with st := { w.st with timerInterval := h } }

/-- The setter `setIsModalOpen`. -/
def setIsModalOpen (b : Bool) (w : World) : World :=
  { w with st := { w.st with isModalOpen := b } }

/-- The setter `setReviewCard`. -/
def setReviewCard (c : Option Card) (w : World) : World :=
  { w with st := { w.st with reviewCard := c } }

/-- The setter `setShowBack`. -/
def setShowBack (b : Bool) (w : World) : World :=
  { w with st := { w.st with showBack := b } }

/-- The setter `setRating`. -/
def setRating (r : Int) (w : World) : World :=
  { w with st := { w.st with rating := r } }

/-- The setter `setCurrentSession`. -/
def setCurrentSession (s : Option Session) (w : World) : World :=
  { w with st := { w.st with currentSession := s } }

/-! ## The countdown (lines 391-421) -/

/-- The callback given to `setInterval` in `startTimer` (lines 394-405), for the
interval `h`.  It runs only while `h` is live.  With `prev = timer`: when
`prev <= 1` it clears `h`, sets `isTimerRunning` to false, opens the modal and
puts the timer back to 60; otherwise the timer becomes `prev - 1`. -/
def intervalTick (h : Nat) (w : World) : World :=
  if h ∈ w.live then
    if w.st.timer ≤ 1 then
      let w1 := clearInterval h w
      let w2 := setIsTimerRunning false w1
      let w3 := setIsModalOpen true { w2 with expiries := w2.expiries + 1 }
      setTimer 60 w3
    else
      setTimer (w.st.timer - 1) w
  else w

/-- The function `startTimer` (lines 391-408) of the render with state `snap`. -/
def startTimer (snap : AppState) (w : World) : World :=
  if !snap.isTimerRunning then
    let w1 := setIsTimerRunning true w
    let h := w1.nextId
    let w2 := { w1 with live := w1.live ++ [h], nextId := h + 1 }
    setTimerInterval (some h) w2
  else w

/-- The function `stopTimer` (lines 410-416) of the render with state `snap`. -/
def stopTimer (snap : AppState) (w : World) : World :=
  let w1 :=
    if truthyNum snap.timerInterval then
      setTimerInterval none (clearInterval (snap.timerInterval.getD 0) w)
    else w
  setIsTimerRunning false w1

/-- The function `resetTimer` (lines 418-421) of the render with state `snap`. -/
def resetTimer (snap : AppState) (w : World) : World :=
  setTimer 60 (stopTimer snap w)

/-- The `onClose` of `TimerModal` (line 1294). -/
def closeTimerModal (w : World) : World :=
  setIsModalOpen false w

/-- The timer buttons of the navigation bar (lines 508-511), the interval
callback, and the modal button: the steps of the countdown alone.  A click
runs the function of the current render. -/
inductive TimerEvent
  | start
  | stop
  | reset
  | tick (h : Nat)
  | closeModal
  deriving DecidableEq, Repr

/-- One step of the countdown. -/
def timerStep (w : World) : TimerEvent → World
  | TimerEvent.start => startTimer w.st w
  | TimerEvent.stop => stopTimer w.st w
  | TimerEvent.reset => resetTimer w.st w
  | TimerEvent.tick h => intervalTick h w
  | TimerEvent.closeModal => closeTimerModal w

/-- A sequence of countdown steps, oldest first. -/
def timerRun (w : World) (evs : List TimerEvent) : World :=
  evs.foldl timerStep w

/-! ## Answers of the service -/

/-- The `error.response` of a rejected request: its status and the `error`
field of its body. -/
structure ErrorResponse where
  status : Nat
  error : Option String
  deriving DecidableEq, Repr

/-- What `await axios...` yields: the promise resolves with a body, or rejects
with an error that carries a response (a status outside 2xx), or only
`error.request` (no response reached the client), and always a `message`. -/
inductive Answer (β : Type)
  | resolved (data : β)
  | rejected (response : Option ErrorResponse) (request : Bool) (message : String)
  deriving Repr

/-- The body answered to fetch-next-card and to submit-review. -/
structure CardReply where
  success : Bool
  next_card : Option Card
  error : Option String
  deriving DecidableEq, Repr

/-- The body answered to create-session. -/
structure SessionReply where
  success : Bool
  session : Option Session
  error : Option String
  deriving DecidableEq, Repr

/-! ## Fetching and reviewing cards (lines 594-689) -/

/-- The message `errorMsg` of the `catch` of `getNextCard` (lines 616-623). -/
def nextCardErrorMsg (response : Option ErrorResponse) (message : String) : String :=
  match response with
  | some r => if truthyStr r.error then r.error.getD message else message
  | none => message

/-- The message `errorMsg` of the `catch` of `handleReview` (lines 675-680). -/
def reviewErrorMsg (response : Option ErrorResponse) : String :=
  match response with
  | some r => orDefault r.error "Error submitting review. Please try again."
  | none => "Error submitting review. Please try again."

/-- The part of `getNextCard` after `await axios.post` (lines 602-631): the
world afterwards, and whether the error was rethrown (line 630). -/
def getNextCardAnswer (ans : Answer CardReply) (w : World) : World × Bool :=
  match ans with
  | Answer.resolved data =>
    if data.success && data.next_card.isSome then
      (setRating 10 (setShowBack false (setReviewCard data.next_card w)), false)
    else
      (setView View.decks
        (alert "Error: Could not load next card. The response format was invalid." w), false)
  | Answer.rejected response _ message =>
    (setView View.decks
      (alert ("Error getting next card: " ++ nextCardErrorMsg response message) w), true)

/-- The function `getNextCard` (lines 594-632) of the render with state `snap`:
nothing without a deck; otherwise one request, then the answer is handled. -/
def getNextCard (snap : AppState) (ans : Answer CardReply) (w : World) : World × Bool :=
  if !truthyStr snap.currentDeck then (w, false)
  else getNextCardAnswer ans (send (Request.nextCard (snap.currentDeck.getD "")) w)

/-- The part of `handleReview` after `await axios.post` (lines 651-688), of the
render with state `snap`. -/
def handleReviewAnswer (snap : AppState) (ans : Answer CardReply) (w : World) : World :=
  match ans with
  | Answer.resolved data =>
    if data.success && data.next_card.isSome then
      let w1 := stopTimer snap w
      let w2 := resetTimer snap w1
      let w3 := setReviewCard data.next_card w2
      let w4 := setShowBack false w3
      let w5 := setRating 10 w4
      startTimer snap w5
    else
      let errorMsg := orDefault data.error "Could not load next card. Please try again."
      let w1 := alert ("Error: " ++ errorMsg) w
      if truthyStr data.error && includes (data.error.getD "") "No more cards" then
        setView View.decks (alert "You have completed all available cards in this deck!" w1)
      else w1
  | Answer.rejected response _ _ =>
    let w1 := alert (reviewErrorMsg response) w
    match response with
    | some r => if r.status ≥ 500 then setView View.decks w1 else w1
    | none => w1

/-- The request of `handleReview` (lines 645-649) for the card `card`. -/
def reviewRequest (snap : AppState) (card : Card) : Request :=
  Request.review snap.currentDeck card.id snap.rating (snap.currentSession.map Session.id)

/-- The function `handleReview` (lines 635-689) of the render with state `snap`,
with nothing happening while the request is in flight.  Without a review card
`reviewCard.id` throws inside the `try` and the `catch` shows its default
message. -/
def handleReview (snap : AppState) (ans : Answer CardReply) (w : World) : World :=
  match snap.reviewCard with
  | none => alert "Error submitting review. Please try again." w
  | some card => handleReviewAnswer snap ans (send (reviewRequest snap card) w)

/-- The `onClick` of the Show Answer button (lines 1267-1270). -/
def reveal (snap : AppState) (w : World) : World :=
  stopTimer snap (setShowBack true w)

/-- The `onChange` of the rating slider (line 1258), `value` being
`parseInt(e.target.value)`. -/
def ratingSliderChange (value : Int) (w : World) : World :=
  setRating value w

/-- The value an `input` of type `range` holds when it is asked for `raw`: the
control keeps its value between its `min` and its `max`. -/
def rangeValue (min max raw : Int) : Int :=
  if raw < min then min else if max < raw then max else raw

/-- The rating slider (lines 1253-1260): a range input declared with `min="0"`
and `max="10"`, whose `onChange` gives the value it holds to `setRating`. -/
def ratingSlider (raw : Int) (w : World) : World :=
  ratingSliderChange (rangeValue 0 10 raw) w

/-! ## Renders and the view effect (lines 272-278) -/

/-- The effect `useEffect(..., [view])`: it runs the `stopTimer` and
`resetTimer` of the render that was just committed. -/
def viewEffect (w : World) : World :=
  if w.st.view != View.review then resetTimer w.st (stopTimer w.st w) else w

/-- A render committed after the setter calls of one continuation, `prev`
being the view of the render before: the effect runs when `view` changed. -/
def render (prev : View) (w : World) : World :=
  if w.st.view = prev then w else viewEffect w

/-! ## Sessions (lines 281-384) -/

/-- The message computed by the `catch` of `startStudySession` (lines 342-356)
from the error it caught. -/
def startErrorMsg (response : Option ErrorResponse) (request : Bool) : String :=
  match response with
  | some r =>
    if truthyStr r.error then
      if includes (r.error.getD "") "no cards" then
        "This deck has no cards. Please add some cards before studying."
      else "Failed to create study session: " ++ r.error.getD ""
    else "Failed to create study session. Please try again."
  | none =>
    if request then
      "Failed to create study session: No response from server. Is the backend running?"
    else "Failed to create study session. Please try again."

/-- The `catch` of `startStudySession` (lines 340-361). -/
def startCatch (response : Option ErrorResponse) (request : Bool) (w : World) : World :=
  setView View.decks (alert (startErrorMsg response request) w)

/-- The outcome of the first part of `startStudySession`: the flow is over, or
the session is created and the first card is to be fetched. -/
inductive Created
  | over (w : World)
  | fetching (w : World)
  deriving Repr

/-- The function `startStudySession` from the `prompt` to the end of the
create-session request (lines 283-317 and 336-361), of the render with state
`snap`; `sessionName` is what `prompt` returned. -/
def startStudySessionCreate (snap : AppState) (sessionName : Option String)
    (created : Answer SessionReply) (w : World) : Created :=
  match sessionName with
  | none => Created.over (setView View.decks w)
  | some name =>
    if !truthyStr snap.currentDeck then
      Created.over (setView View.decks (alert "Please select a deck before studying." w))
    else
      let w1 := send (Request.createSession (snap.currentDeck.getD "")
        (if name != "" then some name else none)) w
      match created with
      | Answer.resolved data =>
        if data.success then Created.fetching (setCurrentSession data.session w1)
        else Created.over
          (alert ("Failed to create study session: " ++ orDefault data.error "Unknown error") w1)
      | Answer.rejected response request _ => Created.over (startCatch response request w1)

/-- The function `startStudySession` after the wait of 500 ms, up to the end of
the first `getNextCard` (lines 322-330): the world, and whether the retry is
pending. -/
def startStudySessionFirst (snap : AppState) (first : Answer CardReply) (w : World) :
    World × Bool :=
  let w1 := setView View.review w
  let w2 := resetTimer snap w1
  let r := getNextCard snap first w2
  if r.2 then (r.1, true) else (startTimer snap r.1, false)

/-- The function `startStudySession` after the wait of 1000 ms (lines 333-334):
the second `getNextCard`; its error reaches the outer `catch`. -/
def startStudySessionRetry (snap : AppState) (second : Answer CardReply) (w : World) : World :=
  let r := getNextCard snap second w
  if r.2 then
    match second with
    | Answer.rejected response request _ => startCatch response request r.1
    | Answer.resolved _ => r.1
  else startTimer snap r.1

/-- The function `startStudySession` (lines 281-362) run by a click in the
world `w`, with nothing else happening while it waits.  The setter calls of
each continuation are followed by a render: after the fetch was sent the view
committed is `review`; a failed first fetch commits `decks` before the retry. -/
def startStudySession (sessionName : Option String) (created : Answer SessionReply)
    (first second : Answer CardReply) (w : World) : World :=
  match startStudySessionCreate w.st sessionName created w with
  | Created.over w1 => render w.st.view w1
  | Created.fetching w1 =>
    let r := startStudySessionFirst w.st first w1
    if r.2 then
      let w2 := render View.review r.1
      render w2.st.view (startStudySessionRetry w.st second w2)
    else render View.review r.1

/-- The function `loadSessions` (lines 377-384): one request; its answer only
fills `sessions`. -/
def loadSessions (snap : AppState) (w : World) : World :=
  send (Request.listSessions (if truthyStr snap.currentDeck then snap.currentDeck else none)) w

/-- The function `endStudySession` (lines 364-375) of the render with state
`snap`; `ended` is the answer to the end-session request. -/
def endStudySession (snap : AppState) (ended : Answer Unit) (w : World) : World :=
  match snap.currentSession with
  | none => w
  | some s =>
    let w1 := send (Request.endSession s.id) w
    match ended with
    | Answer.resolved _ => loadSessions snap (setView View.stats (setCurrentSession none w1))
    | Answer.rejected _ _ _ => w1

/-- The End Session button (line 1227) clicked in the world `w`, followed by
the render. -/
def endSessionClick (ended : Answer Unit) (w : World) : World :=
  render w.st.view (endStudySession w.st ended w)

/-! ## The navigation guard (lines 1081-1106) -/

/-- What the host bridge answers: `checkActiveSession()` and
`confirmNavigation()`. -/
structure HostBridge where
  active : Bool
  confirm : Bool
  deriving DecidableEq, Repr

/-- An exception that leaves a handler. -/
inductive JsError
  | typeError
  deriving DecidableEq, Repr

/-- The function `endAndSaveSession` (lines 1096-1106) of the render with state
`snap`; `saved` is the answer to its request. -/
def endAndSaveSession (snap : AppState) (saved : Answer Unit) (w : World) : World :=
  match snap.currentSession with
  | none => w
  | some s =>
    if s.id != 0 then
      let w1 := send (Request.sessionsEnd s.id) w
      match saved with
      | Answer.resolved _ => hostCall HostCall.endSession w1
      | Answer.rejected _ _ _ => w1
    else w

/-- The function `handleNavigation` (lines 1081-1093) of the render with state
`snap`; `api` is `window.electronAPI`, absent or answering.  Reading
`checkActiveSession` of an absent bridge throws. -/
def handleNavigation (snap : AppState) (api : Option HostBridge) (destination : View)
    (saved : Answer Unit) (w : World) : Except JsError World :=
  match api with
  | none => Except.error JsError.typeError
  | some bridge =>
    let w1 := hostCall HostCall.checkActiveSession w
    if bridge.active then
      let w2 := hostCall HostCall.confirmNavigation w1
      if bridge.confirm then
        Except.ok (setView destination (endAndSaveSession snap saved w2))
      else Except.ok w2
    else Except.ok (setView destination w1)

/-! ## The navigation bar and the navigation patch (lines 423-515) -/

/-- The buttons of the navigation bar that change the view (lines 481-504). -/
inductive NavButton
  | decks
  | add
  | manage
  | stats
  deriving DecidableEq, Repr

/-- The view a button of the navigation bar passes to `setView`. -/
def NavButton.view : NavButton → View
  | NavButton.decks => View.decks
  | NavButton.add => View.add
  | NavButton.manage => View.manage
  | NavButton.stats => View.stats

/-- One click listener of the navigation patch (lines 447-473) on a click on a
button, which has no `href`.  Without the bridge, or without its
`checkActiveSession`, the listener does nothing.  With it the bridge is asked
whether a session is active, then for the confirmation, and when that is
granted the bridge is told to end the session. -/
def navigationPatchClick (api : Option HostBridge) (w : World) : World :=
  match api with
  | none => w
  | some bridge =>
    let w1 := hostCall HostCall.checkActiveSession w
    if bridge.active then
      let w2 := hostCall HostCall.confirmNavigation w1
      if bridge.confirm then hostCall HostCall.endSession w2 else w2
    else w1

/-- A click on a button of the navigation bar.  Its `onClick` calls `setView`
(lines 483, 489, 495 and 501) and the render follows; the click then reaches
the listeners of the navigation patch, `installed` of them, one being added by
every run of the component body (line 423). -/
def navButtonClick (api : Option HostBridge) (installed : Nat) (b : NavButton) (w : World) :
    World :=
  (navigationPatchClick api)^[installed] (render w.st.view (setView b.view w))

/-! ## The create-deck form (lines 12-38) -/

/-- The code points `String.prototype.trim` strips: the white space and the
line terminators of ECMAScript. -/
def jsWhitespace (c : Char) : Bool :=
  c.toNat == 0x9 || c.toNat == 0xA || c.toNat == 0xB || c.toNat == 0xC || c.toNat == 0xD ||
  c.toNat == 0x20 || c.toNat == 0xA0 || c.toNat == 0x1680 ||
  (0x2000 ≤ c.toNat && c.toNat ≤ 0x200A) ||
  c.toNat == 0x2028 || c.toNat == 0x2029 || c.toNat == 0x202F || c.toNat == 0x205F ||
  c.toNat == 0x3000 || c.toNat == 0xFEFF

/-- The method `String.prototype.trim`. -/
def jsTrim (s : String) : String :=
  String.mk ((s.toList.dropWhile jsWhitespace).rdropWhile jsWhitespace)

/-- The state of `CreateDeckModal` (lines 13-15), and the names its prop
`onSubmit` was called with. -/
structure CreateDeckForm where
  deckName : String
  isSubmitting : Bool
  error : String
  submitted : List String
  deriving DecidableEq, Repr

/-- The function `handleSubmit` of `CreateDeckModal` (lines 17-38);
`onSubmitThrows` tells whether the prop `onSubmit` throws. -/
def handleSubmit (onSubmitThrows : Bool) (f : CreateDeckForm) : CreateDeckForm :=
  if !truthyStr (some (jsTrim f.deckName)) then
    { f with error := "Please enter a deck name" }
  else
    let f1 := { f with isSubmitting := true }
    let f2 := { f1 with error := "" }
    let f3 := { f2 with submitted := f2.submitted ++ [jsTrim f.deckName] }
    let f4 := if onSubmitThrows then { f3 with error := "Error submitting form" } else f3
    { f4 with isSubmitting := false }

/-! ## The component as a transition system -/

/-- The component together with the `handleReview` calls whose request is in
flight: each keeps the state of the render that created it. -/
structure Sys where
  world : World
  inflight : List AppState
  deriving Repr

/-- The component at mount. -/
def initSys : Sys :=
  { world := initWorld, inflight := [] }

/-- What can happen to the component during a review: the clicks the rendered
tree offers, the interval callback, and the answer to a review request. -/
inductive Event
  | selectDeck (deck : String)
  | study (sessionName : Option String) (created : Answer SessionReply)
      (first second : Answer CardReply)
  | timerButton
  | resetButton
  | tick (h : Nat)
  | reveal
  | slider (value : Int)
  | submit
  | submitAnswer (ans : Answer CardReply)
  deriving Repr

/-- The review card is on screen (lines 1218 and 1235). -/
def cardShown (st : AppState) : Bool :=
  st.view == View.review && st.reviewCard.isSome

/-- One event.  A click acts only where its button is rendered: the deck cards
and Study in the deck list (line 1280), the timer buttons in the review view
(line 505), Show Answer on a front, the slider and Submit Review on a back
(line 1244).  The timer button is `stopTimer` when running, else `startTimer`
(line 508).  Submit Review sends the request and leaves the call in flight;
its answer resumes the oldest call in flight. -/
def step (s : Sys) : Event → Sys
  | Event.selectDeck deck =>
    if s.world.st.view = View.decks then
      { s with world := { s.world with st := { s.world.st with currentDeck := some deck } } }
    else s
  | Event.study sessionName created first second =>
    if s.world.st.view = View.decks then
      if truthyStr s.world.st.currentDeck then
        { s with world := startStudySession sessionName created first second s.world }
      else { s with world := alert "Please select a deck first" s.world }
    else s
  | Event.timerButton =>
    if s.world.st.view = View.review then
      if s.world.st.isTimerRunning then { s with world := stopTimer s.world.st s.world }
      else { s with world := startTimer s.world.st s.world }
    else s
  | Event.resetButton =>
    if s.world.st.view = View.review then { s with world := resetTimer s.world.st s.world }
    else s
  | Event.tick h => { s with world := intervalTick h s.world }
  | Event.reveal =>
    if cardShown s.world.st && !s.world.st.showBack then
      { s with world := reveal s.world.st s.world }
    else s
  | Event.slider value =>
    if cardShown s.world.st && s.world.st.showBack then
      { s with world := ratingSlider value s.world }
    else s
  | Event.submit =>
    if cardShown s.world.st && s.world.st.showBack then
      match s.world.st.reviewCard with
      | some card =>
        { world := send (reviewRequest s.world.st card) s.world,
          inflight := s.inflight ++ [s.world.st] }
      | none => s
    else s
  | Event.submitAnswer ans =>
    match s.inflight with
    | [] => s
    | snap :: rest =>
      { world := render s.world.st.view (handleReviewAnswer snap ans s.world),
        inflight := rest }

/-- A sequence of events from mount, oldest first. -/
def run (evs : List Event) : Sys :=
  evs.foldl step initSys

/-- The answer to a review request as the component handles it: the
continuation of `handleReview` (lines 651-688) of the render with state `snap`,
then the render. -/
def reviewAnswered (snap : AppState) (ans : Answer CardReply) (w : World) : World :=
  render w.st.view (handleReviewAnswer snap ans w)

/-- The answer to a fetch as the component handles it: the continuation of
`getNextCard` (lines 602-631), then that of `startStudySession`, of the render
with state `snap` (`startTimer` when nothing was thrown, lines 328 and 334; the
outer `catch` when the retry threw, lines 340-361), then the render.  The flag
`retry` tells the retry from the first fetch. -/
def fetchAnswered (snap : AppState) (retry : Bool) (ans : Answer CardReply) (w : World) :
    World :=
  let r := getNextCardAnswer ans w
  let w1 :=
    if r.2 then
      match retry, ans with
      | true, Answer.rejected response request _ => startCatch response request r.1
      | _, _ => r.1
    else startTimer snap r.1
  render w.st.view w1

/-- The world `b` differs from `a` at most in the timer: `timer`,
`isTimerRunning`, `timerInterval`, the live intervals and the next interval
id. -/
def TimerOnly (a b : World) : Prop :=
  b.requests = a.requests ∧ b.alerts = a.alerts ∧ b.hostCalls = a.hostCalls ∧
  b.expiries = a.expiries ∧ b.st.view = a.st.view ∧
  b.st.currentSession = a.st.currentSession ∧ b.st.reviewCard = a.st.reviewCard ∧
  b.st.showBack = a.st.showBack ∧ b.st.rating = a.st.rating ∧
  b.st.currentDeck = a.st.currentDeck ∧ b.st.isModalOpen = a.st.isModalOpen

/-- The world an outcome of `startStudySessionCreate` carries. -/
def Created.world : Created → World
  | Created.over w => w
  | Created.fetching w => w

/-- Every rating the world holds or has sent in a review request lies in
0..10. -/
def RatingOk (w : World) : Prop :=
  (0 ≤ w.st.rating ∧ w.st.rating ≤ 10) ∧
  ∀ (deck : Option String) (id : Nat) (r : Int) (sid : Option Nat),
    Request.review deck id r sid ∈ w.requests → 0 ≤ r ∧ r ≤ 10

/-- The review card, the revealed flag, the pending rating and the timer (its
seconds, its running flag, its interval and the live intervals) are the same in
`a` and `b`. -/
def SameReview (a b : World) : Prop :=
  b.st.reviewCard = a.st.reviewCard ∧ b.st.showBack = a.st.showBack ∧
  b.st.rating = a.st.rating ∧ b.st.timer = a.st.timer ∧
  b.st.isTimerRunning = a.st.isTimerRunning ∧ b.st.timerInterval = a.st.timerInterval ∧
  b.live = a.live

/-! ## Sample data -/

/-- A first card. -/
def cardOne : Card :=
  { id := 1, front := "hola", back := "hello" }

/-- A second card. -/
def cardTwo : Card :=
  { id := 2, front := "gracias", back := "thanks" }

/-- A session the service created. -/
def sessionSeven : Session :=
  { id := 7, name := "Morning" }

/-- The body of a successful create-session for `sessionSeven`. -/
def createdOk : Answer SessionReply :=
  Answer.resolved { success := true, session := some sessionSeven, error := none }

/-- The body of a success with the next card `c`. -/
def cardOk (c : Card) : Answer CardReply :=
  Answer.resolved { success := true, next_card := some c, error := none }

/-- The body of a success that carries no next card and no error. -/
def successWithoutCard : Answer CardReply :=
  Answer.resolved { success := true, next_card := none, error := none }

/-- The body of an answer that reports that no more cards are left. -/
def noMoreCards : Answer CardReply :=
  Answer.resolved { success := false, next_card := none, error := some "No more cards to review" }

/-- A rejected request: the server answered with status 500. -/
def serverError : Answer CardReply :=
  Answer.rejected (some { status := 500, error := some "Internal Server Error" }) true
    "Request failed with status code 500"

/-- A rejected request: the server answered with status 404. -/
def notFound : Answer CardReply :=
  Answer.rejected (some { status := 404, error := some "Session not registered" }) true
    "Request failed with status code 404"

/-- A rejected request: no response reached the client. -/
def networkError : Answer CardReply :=
  Answer.rejected none true "Network Error"

/-- The body of an answer that reports a failure: the request was answered, with
`success: false` and an error. -/
def failedBody : Answer CardReply :=
  Answer.resolved { success := false, next_card := none, error := some "Session not registered" }

/-- The deck Spanish is selected and Study is clicked; the session is created
and the first fetch is answered with a body that reports a failure. -/
def firstFailsInBody : List Event :=
  [Event.selectDeck "Spanish", Event.study (some "") createdOk failedBody (cardOk cardOne)]

/-- A session is started on the deck Spanish and the front of `cardOne` is
shown with the timer running. -/
def toFront : List Event :=
  [Event.selectDeck "Spanish", Event.study (some "") createdOk (cardOk cardOne) (cardOk cardOne)]

/-- After `toFront`: Show Answer, the timer button (it shows the start symbol,
the timer being paused), then Submit Review and its answer with `cardTwo`. -/
def restartThenSubmit : List Event :=
  toFront ++ [Event.reveal, Event.timerButton, Event.submit, Event.submitAnswer (cardOk cardTwo)]

/-- After `toFront`: Show Answer, Submit Review, the timer button while the
review request is in flight, then the answer with `cardTwo`. -/
def submitThenRestart : List Event :=
  toFront ++ [Event.reveal, Event.submit, Event.timerButton, Event.submitAnswer (cardOk cardTwo)]

/-- The deck Spanish is selected and Study is clicked; the session is created,
the first fetch is rejected with status 404 and the retry brings `cardOne`. -/
def retryThenCard : List Event :=
  [Event.selectDeck "Spanish", Event.study (some "") createdOk notFound (cardOk cardOne)]

/-- The deck Spanish is selected and Study is clicked; the session is created
and the first fetch is answered with a success that carries no card. -/
def firstWithoutCard : List Event :=
  [Event.selectDeck "Spanish",
    Event.study (some "") createdOk successWithoutCard (cardOk cardOne)]

/-- After `toFront`: Show Answer and Submit Review; the review request for
`cardOne` is in flight. -/
def submitInFlight : List Event :=
  toFront ++ [Event.reveal, Event.submit]

/-- The world of `submitInFlight` after End Session was clicked and its request
answered: no session is current any more, and the review request is still in
flight. -/
def endedWhileInFlight : World :=
  endSessionClick (Answer.resolved ()) (run submitInFlight).world

/-- After `toFront`: Show Answer, Submit Review clicked twice, and the answer
to the first request, with `cardTwo`: the front of `cardTwo` is shown and the
second review request, issued for `cardOne`, is still in flight. -/
def cardChangedWhileInFlight : List Event :=
  toFront ++ [Event.reveal, Event.submit, Event.submit, Event.submitAnswer (cardOk cardTwo)]

/-! ## Facts about the countdown -/

/-- Writing back the value the timer already has changes nothing. -/
theorem setTimer_self (w : World) : setTimer w.st.timer w = w := rfl

/-- While the timer shows more than one second, a tick of a live interval only
takes one second off. -/
theorem intervalTick_of_gt (h : Nat) (w : World) (hl : h ∈ w.live) (ht : 1 < w.st.timer) :
    intervalTick h w = setTimer (w.st.timer - 1) w := by
  have hnot : ¬ w.st.timer ≤ 1 := not_le.mpr ht
  simp [intervalTick, hl, hnot]

/-- From 60 seconds, fewer than 60 ticks of a live interval only lower the timer. -/
theorem intervalTick_iterate_lt (h : Nat) (w : World) (hl : h ∈ w.live)
    (ht : w.st.timer = 60) :
    ∀ k : Nat, k < 60 → (intervalTick h)^[k] w = setTimer (60 - (k : Int)) w := by
  intro k
  induction k with
  | zero =>
    intro _
    have hw := setTimer_self w
    rw [ht] at hw
    simpa using hw.symm
  | succ n ih =>
    intro hn
    have hprev := ih (by omega)
    rw [Function.iterate_succ_apply', hprev]
    have hlive : h ∈ (setTimer (60 - (n : Int)) w).live := hl
    have hgt : 1 < (setTimer (60 - (n : Int)) w).st.timer := by
      show (1 : Int) < 60 - (n : Int)
      omega
    rw [intervalTick_of_gt h _ hlive hgt]
    show setTimer (60 - (n : Int) - 1) (setTimer (60 - (n : Int)) w) = _
    have hcast : (60 : Int) - ((n + 1 : Nat) : Int) = 60 - (n : Int) - 1 := by
      push_cast
      ring
    rw [hcast]
    rfl

/-- An interval that is not live never acts. -/
theorem intervalTick_iterate_dead (h : Nat) (w : World) (hl : h ∉ w.live) :
    ∀ j : Nat, (intervalTick h)^[j] w = w := by
  intro j
  induction j with
  | zero => rfl
  | succ n ih =>
    rw [Function.iterate_succ_apply', ih]
    simp [intervalTick, hl]

/-- The sixtieth tick from 60 seconds is the expiry branch of the callback. -/
theorem intervalTick_iterate_sixty (h : Nat) (w : World) (hl : h ∈ w.live)
    (ht : w.st.timer = 60) :
    (intervalTick h)^[60] w =
      { w with
        st := { w.st with timer := 60, isTimerRunning := false, isModalOpen := true },
        live := w.live.filter (fun i => i != h),
        expiries := w.expiries + 1 } := by
  have h59 := intervalTick_iterate_lt h w hl ht 59 (by decide)
  rw [Function.iterate_succ_apply', h59]
  simp [intervalTick, setTimer, setIsTimerRunning, setIsModalOpen, clearInterval, hl]

/-- C2: from a running timer at 60 seconds, `k < 60` ticks leave
`remainingSeconds = 60 - k` with the timer running and no notification; the
60th tick opens the time-is-up modal exactly once, cancels the countdown
handle and leaves `remainingSeconds = 60`, `Running = false`; nothing restarts
the timer: no handle is created, later ticks of the cancelled handle do nothing,
and closing the modal leaves the timer stopped. -/
theorem countdown_from_sixty (h : Nat) (w : World) (hl : h ∈ w.live)
    (ht : w.st.timer = 60) (hr : w.st.isTimerRunning = true) :
    (∀ k : Nat, k < 60 →
      ((intervalTick h)^[k] w).st.timer = 60 - (k : Int) ∧
      ((intervalTick h)^[k] w).st.isTimerRunning = true ∧
      h ∈ ((intervalTick h)^[k] w).live ∧
      ((intervalTick h)^[k] w).expiries = w.expiries) ∧
    ((intervalTick h)^[60] w).expiries = w.expiries + 1 ∧
    ((intervalTick h)^[60] w).st.isModalOpen = true ∧
    h ∉ ((intervalTick h)^[60] w).live ∧
    ((intervalTick h)^[60] w).live = w.live.filter (fun i => i != h) ∧
    ((intervalTick h)^[60] w).nextId = w.nextId ∧
    ((intervalTick h)^[60] w).st.timer = 60 ∧
    ((intervalTick h)^[60] w).st.isTimerRunning = false ∧
    (∀ j : Nat, (intervalTick h)^[60 + j] w = (intervalTick h)^[60] w) ∧
    (closeTimerModal ((intervalTick h)^[60] w)).st.isTimerRunning = false ∧
    (closeTimerModal ((intervalTick h)^[60] w)).live = ((intervalTick h)^[60] w).live := by
  have h60 := intervalTick_iterate_sixty h w hl ht
  have hdead : h ∉ ((intervalTick h)^[60] w).live := by
    rw [h60]
    simp
  refine ⟨?_, ?_, ?_, hdead, ?_, ?_, ?_, ?_, ?_, ?_, ?_⟩
  · intro k hk
    rw [intervalTick_iterate_lt h w hl ht k hk]
    exact ⟨rfl, hr, hl, rfl⟩
  · rw [h60]
  · rw [h60]
  · rw [h60]
  · rw [h60]
  · rw [h60]
  · rw [h60]
  · intro j
    rw [Nat.add_comm, Function.iterate_add_apply]
    exact intervalTick_iterate_dead h _ hdead j
  · rw [h60]
    rfl
  · generalize (intervalTick h)^[60] w = x
    rfl

/-- C2 at the world in which `startTimer` was just run at mount: interval 1 is
live, and its sixtieth tick stops the timer at 60 with one notification. -/
theorem countdown_from_sixty_witness :
    1 ∈ (startTimer initState initWorld).live ∧
    (startTimer initState initWorld).st.timer = 60 ∧
    (startTimer initState initWorld).st.isTimerRunning = true ∧
    ((intervalTick 1)^[60] (startTimer initState initWorld)).st.isTimerRunning = false ∧
    ((intervalTick 1)^[60] (startTimer initState initWorld)).expiries = 1 :=
  ⟨by decide, rfl, rfl,
    (countdown_from_sixty 1 (startTimer initState initWorld) (by decide) rfl rfl).2.2.2.2.2.2.2.1,
    (countdown_from_sixty 1 (startTimer initState initWorld) (by decide) rfl rfl).2.1⟩

/-- One countdown step keeps the timer within 0..60. -/
theorem timerStep_bounds (w : World) (e : TimerEvent)
    (hb : 0 ≤ w.st.timer ∧ w.st.timer ≤ 60) :
    0 ≤ (timerStep w e).st.timer ∧ (timerStep w e).st.timer ≤ 60 := by
  cases e with
  | start =>
    by_cases hrun : w.st.isTimerRunning = true
    · simpa [timerStep, startTimer, hrun] using hb
    · simpa [timerStep, startTimer, hrun, setTimerInterval, setIsTimerRunning] using hb
  | stop =>
    by_cases hh : truthyNum w.st.timerInterval = true
    · simpa [timerStep, stopTimer, hh, setTimerInterval, setIsTimerRunning, clearInterval]
        using hb
    · simpa [timerStep, stopTimer, hh, setIsTimerRunning] using hb
  | reset => simp [timerStep, resetTimer, setTimer]
  | tick h =>
    by_cases hl : h ∈ w.live
    · by_cases ht : w.st.timer ≤ 1
      · simp [timerStep, intervalTick, hl, ht, setTimer]
      · have hgt : 1 < w.st.timer := not_le.mp ht
        rw [show timerStep w (TimerEvent.tick h) = intervalTick h w from rfl,
          intervalTick_of_gt h w hl hgt]
        show 0 ≤ w.st.timer - 1 ∧ w.st.timer - 1 ≤ 60
        omega
    · simpa [timerStep, intervalTick, hl] using hb
  | closeModal => simpa [timerStep, closeTimerModal, setIsModalOpen] using hb

/-- Any sequence of countdown steps keeps the timer within 0..60. -/
theorem timerRun_bounds (evs : List TimerEvent) :
    ∀ w : World, 0 ≤ w.st.timer ∧ w.st.timer ≤ 60 →
      0 ≤ (timerRun w evs).st.timer ∧ (timerRun w evs).st.timer ≤ 60 := by
  induction evs with
  | nil =>
    intro w hb
    exact hb
  | cons e rest ih =>
    intro w hb
    exact ih (timerStep w e) (timerStep_bounds w e hb)

/-- C9: after any sequence of `startTimer`, `stopTimer`, `resetTimer` and tick
steps (of any interval) from a timer at `remainingSeconds = 60` that is not
running, `remainingSeconds` is not negative and lies in 0..60. -/
theorem remainingSeconds_in_range (w : World) (evs : List TimerEvent)
    (ht : w.st.timer = 60) (_hr : w.st.isTimerRunning = false) :
    0 ≤ (timerRun w evs).st.timer ∧ (timerRun w evs).st.timer ≤ 60 :=
  timerRun_bounds evs w (by rw [ht]; exact ⟨by decide, le_refl _⟩)

/-- C9 at mount, for a start, two ticks, a stop, a reset and a tick. -/
theorem remainingSeconds_in_range_witness :
    initWorld.st.timer = 60 ∧ initWorld.st.isTimerRunning = false ∧
    0 ≤ (timerRun initWorld [TimerEvent.start, TimerEvent.tick 1, TimerEvent.tick 1,
      TimerEvent.stop, TimerEvent.reset, TimerEvent.tick 1]).st.timer ∧
    (timerRun initWorld [TimerEvent.start, TimerEvent.tick 1, TimerEvent.tick 1,
      TimerEvent.stop, TimerEvent.reset, TimerEvent.tick 1]).st.timer ≤ 60 :=
  ⟨rfl, rfl, remainingSeconds_in_range initWorld _ rfl rfl⟩

/-! ## Submitting a review -/

/-- The function `startTimer` of a render in which the timer was running does
nothing. -/
theorem startTimer_of_running (snap : AppState) (w : World)
    (hr : snap.isTimerRunning = true) : startTimer snap w = w := by
  simp [startTimer, hr]

/-- When the render that created `handleReview` had the timer stopped, a success
with a next card shows the front of that card with rating 10 and the timer
running from 60. -/
theorem handleReviewAnswer_next_card_of_stopped (snap : AppState) (w : World)
    (data : CardReply) (c : Card) (hs : data.success = true) (hc : data.next_card = some c)
    (hr : snap.isTimerRunning = false) :
    (handleReviewAnswer snap (Answer.resolved data) w).st.reviewCard = some c ∧
    (handleReviewAnswer snap (Answer.resolved data) w).st.showBack = false ∧
    (handleReviewAnswer snap (Answer.resolved data) w).st.rating = 10 ∧
    (handleReviewAnswer snap (Answer.resolved data) w).st.timer = 60 ∧
    (handleReviewAnswer snap (Answer.resolved data) w).st.isTimerRunning = true := by
  simp [handleReviewAnswer, hs, hc, hr, startTimer, resetTimer, stopTimer, setRating,
    setShowBack, setReviewCard, setTimer, setTimerInterval, setIsTimerRunning]

/-- C1, the code at the failing input: the back of `cardOne` is shown and the
timer was restarted with the timer button, so the render that creates
`handleReview` has `isTimerRunning = true`; the answer brings `cardTwo`.  The
new card is shown, back hidden, rating 10, timer at 60, but the timer is left
stopped with no live interval: `startTimer` reads the `isTimerRunning` of its
render and does nothing. -/
theorem handleReview_leaves_restarted_timer_stopped :
    (run (toFront ++ [Event.reveal, Event.timerButton])).world.st.reviewCard = some cardOne ∧
    (run (toFront ++ [Event.reveal, Event.timerButton])).world.st.showBack = true ∧
    (run (toFront ++ [Event.reveal, Event.timerButton])).world.st.isTimerRunning = true ∧
    (run restartThenSubmit).world.st.reviewCard = some cardTwo ∧
    (run restartThenSubmit).world.st.showBack = false ∧
    (run restartThenSubmit).world.st.rating = 10 ∧
    (run restartThenSubmit).world.st.timer = 60 ∧
    (run restartThenSubmit).world.st.isTimerRunning = false ∧
    (run restartThenSubmit).world.live = [] := by
  decide

/-- C8, the code at the failing input: Submit Review is clicked with the timer
paused, the timer button starts interval 2 while the request is in flight, and
the answer resumes `handleReview` with the state of the render of the click:
`stopTimer` sees no interval to clear and `startTimer` sees a stopped timer, so
interval 3 is created while interval 2 is still live. -/
theorem two_live_intervals_after_submit :
    (run (toFront ++ [Event.reveal, Event.submit, Event.timerButton])).world.live = [2] ∧
    (run submitThenRestart).world.live = [2, 3] ∧
    (run submitThenRestart).world.live.length = 2 := by
  decide

/-! ## The timer functions and the renders touch the timer only -/

/-- The relation `TimerOnly` is reflexive. -/
theorem TimerOnly.refl (w : World) : TimerOnly w w :=
  ⟨rfl, rfl, rfl, rfl, rfl, rfl, rfl, rfl, rfl, rfl, rfl⟩

/-- The relation `TimerOnly` is transitive. -/
theorem TimerOnly.trans {a b c : World} (hab : TimerOnly a b) (hbc : TimerOnly b c) :
    TimerOnly a c := by
  obtain ⟨h1, h2, h3, h4, h5, h6, h7, h8, h9, h10, h11⟩ := hab
  obtain ⟨k1, k2, k3, k4, k5, k6, k7, k8, k9, k10, k11⟩ := hbc
  exact ⟨k1.trans h1, k2.trans h2, k3.trans h3, k4.trans h4, k5.trans h5, k6.trans h6,
    k7.trans h7, k8.trans h8, k9.trans h9, k10.trans h10, k11.trans h11⟩

/-- The function `stopTimer` touches the timer only. -/
theorem stopTimer_timerOnly (snap : AppState) (w : World) : TimerOnly w (stopTimer snap w) := by
  by_cases h1 : truthyNum snap.timerInterval = true <;>
  simp [TimerOnly, stopTimer, h1, setTimerInterval, setIsTimerRunning, clearInterval]

/-- The function `resetTimer` touches the timer only. -/
theorem resetTimer_timerOnly (snap : AppState) (w : World) :
    TimerOnly w (resetTimer snap w) :=
  (stopTimer_timerOnly snap w).trans ⟨rfl, rfl, rfl, rfl, rfl, rfl, rfl, rfl, rfl, rfl, rfl⟩

/-- The function `startTimer` touches the timer only. -/
theorem startTimer_timerOnly (snap : AppState) (w : World) :
    TimerOnly w (startTimer snap w) := by
  by_cases hr : snap.isTimerRunning = true <;>
  simp [TimerOnly, startTimer, hr, setTimerInterval, setIsTimerRunning]

/-- The view effect touches the timer only. -/
theorem viewEffect_timerOnly (w : World) : TimerOnly w (viewEffect w) := by
  unfold viewEffect
  split
  · exact (stopTimer_timerOnly w.st w).trans (resetTimer_timerOnly w.st _)
  · exact TimerOnly.refl w

/-- A render touches the timer only. -/
theorem render_timerOnly (prev : View) (w : World) : TimerOnly w (render prev w) := by
  unfold render
  split
  · exact TimerOnly.refl w
  · exact viewEffect_timerOnly w

/-! ## Starting a session -/

/-- With a deck selected and a successful create-session answer, the first part
of `startStudySession` stores the session and goes on to fetch. -/
theorem startStudySessionCreate_success (w : World) (name : String)
    (session : Option Session) (err : Option String)
    (hdeck : truthyStr w.st.currentDeck = true) :
    startStudySessionCreate w.st (some name)
        (Answer.resolved { success := true, session := session, error := err }) w =
      Created.fetching (setCurrentSession session
        (send (Request.createSession (w.st.currentDeck.getD "")
          (if name != "" then some name else none)) w)) := by
  simp [startStudySessionCreate, hdeck]

/-- The function `getNextCard` with a deck selected sends one request, and
rethrows exactly when the request was rejected. -/
theorem getNextCard_requests (snap : AppState) (ans : Answer CardReply) (w : World)
    (hdeck : truthyStr snap.currentDeck = true) :
    (getNextCard snap ans w).1.requests =
      w.requests ++ [Request.nextCard (snap.currentDeck.getD "")] ∧
    ((getNextCard snap ans w).2 = true ↔ ∃ r q m, ans = Answer.rejected r q m) := by
  cases ans with
  | resolved data =>
    by_cases hok : (data.success && data.next_card.isSome) = true
    · simp [getNextCard, getNextCardAnswer, hdeck, hok, send, setRating, setShowBack,
        setReviewCard]
    · simp [getNextCard, getNextCardAnswer, hdeck, hok, send, setView, alert]
  | rejected r q m =>
    simp [getNextCard, getNextCardAnswer, hdeck, send, setView, alert]


/-- The function `getNextCard` with a deck selected, on a rejected request: one
request, one alert, `view = decks`, and the error is rethrown. -/
theorem getNextCard_rejected (snap : AppState) (r : Option ErrorResponse) (q : Bool)
    (m : String) (w : World) (hdeck : truthyStr snap.currentDeck = true) :
    getNextCard snap (Answer.rejected r q m) w =
      (setView View.decks (alert ("Error getting next card: " ++ nextCardErrorMsg r m)
        (send (Request.nextCard (snap.currentDeck.getD "")) w)), true) := by
  simp [getNextCard, getNextCardAnswer, hdeck]

/-- The function `getNextCard` does not rethrow when the request was answered. -/
theorem getNextCard_resolved_snd (snap : AppState) (data : CardReply) (w : World) :
    (getNextCard snap (Answer.resolved data) w).2 = false := by
  by_cases hdeck : truthyStr snap.currentDeck = true
  · by_cases hok : (data.success && data.next_card.isSome) = true
    · simp [getNextCard, getNextCardAnswer, hdeck, hok]
    · simp [getNextCard, getNextCardAnswer, hdeck, hok]
  · simp [getNextCard, hdeck]

/-- The first fetch of `startStudySession`, answered: one request, no retry
pending. -/
theorem startStudySessionFirst_resolved (snap : AppState) (data : CardReply) (w : World)
    (hdeck : truthyStr snap.currentDeck = true) :
    (startStudySessionFirst snap (Answer.resolved data) w).1.requests =
      w.requests ++ [Request.nextCard (snap.currentDeck.getD "")] ∧
    (startStudySessionFirst snap (Answer.resolved data) w).2 = false := by
  have hno := getNextCard_resolved_snd snap data (resetTimer snap (setView View.review w))
  have hreq := (getNextCard_requests snap (Answer.resolved data)
    (resetTimer snap (setView View.review w)) hdeck).1
  have hreset := (resetTimer_timerOnly snap (setView View.review w)).1
  simp only [startStudySessionFirst, hno, Bool.false_eq_true, if_false]
  refine ⟨?_, trivial⟩
  rw [(startTimer_timerOnly snap _).1, hreq, hreset]
  rfl

/-- The first fetch of `startStudySession`, rejected: one request, one alert,
`view = decks`, and the retry is pending. -/
theorem startStudySessionFirst_rejected (snap : AppState) (r : Option ErrorResponse)
    (q : Bool) (m : String) (w : World) (hdeck : truthyStr snap.currentDeck = true) :
    (startStudySessionFirst snap (Answer.rejected r q m) w).1.requests =
      w.requests ++ [Request.nextCard (snap.currentDeck.getD "")] ∧
    (startStudySessionFirst snap (Answer.rejected r q m) w).1.alerts =
      w.alerts ++ ["Error getting next card: " ++ nextCardErrorMsg r m] ∧
    (startStudySessionFirst snap (Answer.rejected r q m) w).1.st.view = View.decks ∧
    (startStudySessionFirst snap (Answer.rejected r q m) w).2 = true := by
  have hreset := resetTimer_timerOnly snap (setView View.review w)
  simp only [startStudySessionFirst, getNextCard_rejected snap r q m _ hdeck, if_true]
  refine ⟨?_, ?_, rfl, trivial⟩
  · show (resetTimer snap (setView View.review w)).requests ++ _ = _
    rw [hreset.1]
    rfl
  · show (resetTimer snap (setView View.review w)).alerts ++ _ = _
    rw [hreset.2.1]
    rfl

/-- The retry of `startStudySession` sends one request, whatever the answer. -/
theorem startStudySessionRetry_requests (snap : AppState) (second : Answer CardReply)
    (w : World) (hdeck : truthyStr snap.currentDeck = true) :
    (startStudySessionRetry snap second w).requests =
      w.requests ++ [Request.nextCard (snap.currentDeck.getD "")] := by
  cases second with
  | resolved data =>
    simp only [startStudySessionRetry, getNextCard_resolved_snd, Bool.false_eq_true, if_false]
    rw [(startTimer_timerOnly snap _).1]
    exact (getNextCard_requests snap (Answer.resolved data) w hdeck).1
  | rejected r q m =>
    simp only [startStudySessionRetry, getNextCard_rejected snap r q m _ hdeck, if_true]
    rfl

/-- The retry of `startStudySession`, rejected: the alert of `getNextCard`, then
the alert of the outer `catch`, and `view = decks`. -/
theorem startStudySessionRetry_rejected (snap : AppState) (r : Option ErrorResponse)
    (q : Bool) (m : String) (w : World) (hdeck : truthyStr snap.currentDeck = true) :
    (startStudySessionRetry snap (Answer.rejected r q m) w).alerts =
      w.alerts ++ ["Error getting next card: " ++ nextCardErrorMsg r m, startErrorMsg r q] ∧
    (startStudySessionRetry snap (Answer.rejected r q m) w).st.view = View.decks := by
  simp only [startStudySessionRetry, getNextCard_rejected snap r q m _ hdeck, if_true]
  refine ⟨?_, rfl⟩
  simp [startCatch, setView, alert, send]

/-- The first fetch of `startStudySession`, answered without a card: the error
about the response format is shown and the view is `decks`. -/
theorem startStudySessionFirst_without_card (snap : AppState) (data : CardReply) (w : World)
    (hdeck : truthyStr snap.currentDeck = true)
    (hno : (data.success && data.next_card.isSome) = false) :
    (startStudySessionFirst snap (Answer.resolved data) w).1.st.view = View.decks ∧
    (startStudySessionFirst snap (Answer.resolved data) w).1.alerts =
      w.alerts ++ ["Error: Could not load next card. The response format was invalid."] := by
  have hget : getNextCard snap (Answer.resolved data) (resetTimer snap (setView View.review w)) =
      (setView View.decks
        (alert "Error: Could not load next card. The response format was invalid."
          (send (Request.nextCard (snap.currentDeck.getD ""))
            (resetTimer snap (setView View.review w)))), false) := by
    simp [getNextCard, getNextCardAnswer, hdeck, hno]
  have hreset := resetTimer_timerOnly snap (setView View.review w)
  simp only [startStudySessionFirst, hget, Bool.false_eq_true, if_false]
  refine ⟨?_, ?_⟩
  · rw [(startTimer_timerOnly snap _).2.2.2.2.1]
    rfl
  · rw [(startTimer_timerOnly snap _).2.1]
    show (resetTimer snap (setView View.review w)).alerts ++ _ = _
    rw [hreset.2.1]
    rfl

/-- C3 as stated fails: the first fetch fails in its body, the request being
answered with `success: false`; `getNextCard` does not throw, so there is no
retry: fetch-next-card is requested once, the error is shown and the flow ends
in the deck list without a card. -/
theorem failed_body_is_not_retried :
    (run firstFailsInBody).world.requests =
      [Request.createSession "Spanish" none, Request.nextCard "Spanish"] ∧
    (run firstFailsInBody).world.requests.count (Request.nextCard "Spanish") = 1 ∧
    (run firstFailsInBody).world.st.reviewCard = none ∧
    (run firstFailsInBody).world.st.view = View.decks ∧
    (run firstFailsInBody).world.alerts =
      ["Error: Could not load next card. The response format was invalid."] := by
  decide

/-- C3 amended: in `startStudySession`, with a deck selected and the session
created successfully, fetch-next-card is requested exactly once when the first
fetch request is answered (the promise resolves), whatever its body, and
exactly twice when the first fetch request is rejected (an error response or
no response), whatever the second answer.  A first answer without a card, be
it `success: false` or a success without `next_card`, is not retried: the error
about the response format is shown and the flow ends with `view = decks`.  When
both requests are rejected the flow is over with three alerts shown, the last
one from the outer `catch`, and `view = decks`. -/
theorem startStudySession_fetches_at_most_twice (w : World) (name : String)
    (session : Option Session) (err : Option String)
    (hdeck : truthyStr w.st.currentDeck = true) :
    (∀ (data : CardReply) (second : Answer CardReply),
      (startStudySession (some name)
        (Answer.resolved { success := true, session := session, error := err })
        (Answer.resolved data) second w).requests =
      w.requests ++ [Request.createSession (w.st.currentDeck.getD "")
          (if name != "" then some name else none),
        Request.nextCard (w.st.currentDeck.getD "")]) ∧
    (∀ (r : Option ErrorResponse) (q : Bool) (m : String) (second : Answer CardReply),
      (startStudySession (some name)
        (Answer.resolved { success := true, session := session, error := err })
        (Answer.rejected r q m) second w).requests =
      w.requests ++ [Request.createSession (w.st.currentDeck.getD "")
          (if name != "" then some name else none),
        Request.nextCard (w.st.currentDeck.getD ""),
        Request.nextCard (w.st.currentDeck.getD "")]) ∧
    (∀ (r : Option ErrorResponse) (q : Bool) (m : String)
        (r2 : Option ErrorResponse) (q2 : Bool) (m2 : String),
      (startStudySession (some name)
        (Answer.resolved { success := true, session := session, error := err })
        (Answer.rejected r q m) (Answer.rejected r2 q2 m2) w).st.view = View.decks ∧
      (startStudySession (some name)
        (Answer.resolved { success := true, session := session, error := err })
        (Answer.rejected r q m) (Answer.rejected r2 q2 m2) w).alerts =
      w.alerts ++ ["Error getting next card: " ++ nextCardErrorMsg r m,
        "Error getting next card: " ++ nextCardErrorMsg r2 m2, startErrorMsg r2 q2]) ∧
    (∀ (data : CardReply) (second : Answer CardReply),
      (data.success && data.next_card.isSome) = false →
      (startStudySession (some name)
        (Answer.resolved { success := true, session := session, error := err })
        (Answer.resolved data) second w).st.view = View.decks ∧
      (startStudySession (some name)
        (Answer.resolved { success := true, session := session, error := err })
        (Answer.resolved data) second w).alerts =
      w.alerts ++ ["Error: Could not load next card. The response format was invalid."]) := by
  have hcreate := startStudySessionCreate_success w name session err hdeck
  refine ⟨?_, ?_, ?_, ?_⟩
  rotate_left 3
  · intro data second hno
    obtain ⟨_, hnothrow⟩ := startStudySessionFirst_resolved w.st data
      (setCurrentSession session (send (Request.createSession (w.st.currentDeck.getD "")
        (if name != "" then some name else none)) w)) hdeck
    obtain ⟨hview, halert⟩ := startStudySessionFirst_without_card w.st data
      (setCurrentSession session (send (Request.createSession (w.st.currentDeck.getD "")
        (if name != "" then some name else none)) w)) hdeck hno
    simp only [startStudySession, hcreate, hnothrow, Bool.false_eq_true, if_false]
    refine ⟨?_, ?_⟩
    · rw [(render_timerOnly _ _).2.2.2.2.1, hview]
    · rw [(render_timerOnly _ _).2.1, halert]
      simp [setCurrentSession, send]
  · intro data second
    obtain ⟨hreq, hno⟩ := startStudySessionFirst_resolved w.st data
      (setCurrentSession session (send (Request.createSession (w.st.currentDeck.getD "")
        (if name != "" then some name else none)) w)) hdeck
    simp only [startStudySession, hcreate, hno, Bool.false_eq_true, if_false]
    rw [(render_timerOnly _ _).1, hreq]
    simp [setCurrentSession, send]
  · intro r q m second
    obtain ⟨hreq, _, _, hyes⟩ := startStudySessionFirst_rejected w.st r q m
      (setCurrentSession session (send (Request.createSession (w.st.currentDeck.getD "")
        (if name != "" then some name else none)) w)) hdeck
    simp only [startStudySession, hcreate, hyes, if_true]
    rw [(render_timerOnly _ _).1, startStudySessionRetry_requests w.st second _ hdeck,
      (render_timerOnly _ _).1, hreq]
    simp [setCurrentSession, send]
  · intro r q m r2 q2 m2
    obtain ⟨_, halert, _, hyes⟩ := startStudySessionFirst_rejected w.st r q m
      (setCurrentSession session (send (Request.createSession (w.st.currentDeck.getD "")
        (if name != "" then some name else none)) w)) hdeck
    simp only [startStudySession, hcreate, hyes, if_true]
    obtain ⟨halert2, hview2⟩ := startStudySessionRetry_rejected w.st r2 q2 m2
      (render View.review (startStudySessionFirst w.st (Answer.rejected r q m)
        (setCurrentSession session (send (Request.createSession (w.st.currentDeck.getD "")
          (if name != "" then some name else none)) w))).1) hdeck
    refine ⟨?_, ?_⟩
    · rw [(render_timerOnly _ _).2.2.2.2.1, hview2]
    · rw [(render_timerOnly _ _).2.1, halert2, (render_timerOnly _ _).2.1, halert]
      simp [setCurrentSession, send]

/-- C3 amended, on the deck Spanish at mount: two rejected fetches end in the
deck list, and so does a first fetch answered with a body that reports a
failure. -/
theorem startStudySession_fetches_at_most_twice_witness :
    truthyStr (step initSys (Event.selectDeck "Spanish")).world.st.currentDeck = true ∧
    (startStudySession (some "")
      (Answer.resolved { success := true, session := some sessionSeven, error := none })
      (Answer.rejected none true "Network Error") (Answer.rejected none true "Network Error")
      (step initSys (Event.selectDeck "Spanish")).world).st.view = View.decks ∧
    ((false && (none : Option Card).isSome) = false) ∧
    (startStudySession (some "")
      (Answer.resolved { success := true, session := some sessionSeven, error := none })
      (Answer.resolved { success := false, next_card := none, error := some "Session not registered" })
      (cardOk cardOne) (step initSys (Event.selectDeck "Spanish")).world).st.view = View.decks :=
  ⟨by decide,
    ((startStudySession_fetches_at_most_twice (step initSys (Event.selectDeck "Spanish")).world
      "" (some sessionSeven) none (by decide)).2.2.1 none true "Network Error"
      none true "Network Error").1,
    rfl,
    ((startStudySession_fetches_at_most_twice (step initSys (Event.selectDeck "Spanish")).world
      "" (some sessionSeven) none (by decide)).2.2.2
      { success := false, next_card := none, error := some "Session not registered" }
      (cardOk cardOne) rfl).1⟩

/-- C5: `startStudySession` run with a deck selected and no current session,
the create-session request failing.  When the request is rejected with any
error response (in particular the no-cards one), the message of the `catch` is
shown, the view is set to the deck list and no session is current.  When the
failure arrives as a body `success: false` with any error, no session is
current and the view is the deck list, where the Study button that runs
`startStudySession` is rendered: this path shows its alert and leaves the view
as it is. -/
theorem startStudySession_create_failure (w : World) (name : String)
    (first second : Answer CardReply)
    (hdeck : truthyStr w.st.currentDeck = true) (hnone : w.st.currentSession = none) :
    (w.st.view = View.decks →
      ∀ (session : Option Session) (err : Option String),
        (startStudySession (some name)
          (Answer.resolved { success := false, session := session, error := err })
          first second w).st.view = View.decks ∧
        (startStudySession (some name)
          (Answer.resolved { success := false, session := session, error := err })
          first second w).st.currentSession = none) ∧
    (∀ (r : Option ErrorResponse) (q : Bool) (m : String),
      (startStudySession (some name) (Answer.rejected r q m) first second w).st.view =
        View.decks ∧
      (startStudySession (some name) (Answer.rejected r q m)
        first second w).st.currentSession = none ∧
      (startStudySession (some name) (Answer.rejected r q m) first second w).alerts =
        w.alerts ++ [startErrorMsg r q]) := by
  refine ⟨?_, ?_⟩
  · intro hview session err
    have hc : startStudySessionCreate w.st (some name)
        (Answer.resolved { success := false, session := session, error := err }) w =
        Created.over (alert ("Failed to create study session: " ++ orDefault err "Unknown error")
          (send (Request.createSession (w.st.currentDeck.getD "")
            (if name != "" then some name else none)) w)) := by
      simp [startStudySessionCreate, hdeck]
    simp only [startStudySession, hc]
    refine ⟨?_, ?_⟩
    · rw [(render_timerOnly _ _).2.2.2.2.1]
      exact hview
    · rw [(render_timerOnly _ _).2.2.2.2.2.1]
      exact hnone
  · intro r q m
    have hc : startStudySessionCreate w.st (some name) (Answer.rejected r q m) w =
        Created.over (startCatch r q (send (Request.createSession (w.st.currentDeck.getD "")
          (if name != "" then some name else none)) w)) := by
      simp [startStudySessionCreate, hdeck]
    simp only [startStudySession, hc]
    refine ⟨?_, ?_, ?_⟩
    · rw [(render_timerOnly _ _).2.2.2.2.1]
      rfl
    · rw [(render_timerOnly _ _).2.2.2.2.2.1]
      exact hnone
    · rw [(render_timerOnly _ _).2.1]
      rfl

/-- C5 on the deck Spanish at mount: the failure as a body leaves the deck
list on screen, and the create-session request rejected with status 400 and an
error that mentions no cards shows the message about the empty deck. -/
theorem startStudySession_create_failure_witness :
    truthyStr (step initSys (Event.selectDeck "Spanish")).world.st.currentDeck = true ∧
    (step initSys (Event.selectDeck "Spanish")).world.st.currentSession = none ∧
    (step initSys (Event.selectDeck "Spanish")).world.st.view = View.decks ∧
    (startStudySession (some "")
      (Answer.resolved { success := false, session := none, error := some "Deck has no cards" })
      (cardOk cardOne) (cardOk cardOne)
      (step initSys (Event.selectDeck "Spanish")).world).st.view = View.decks ∧
    (startStudySession (some "")
      (Answer.rejected (some { status := 400, error := some "Deck has no cards" }) true "")
      (cardOk cardOne) (cardOk cardOne)
      (step initSys (Event.selectDeck "Spanish")).world).alerts =
      ["This deck has no cards. Please add some cards before studying."] :=
  ⟨by decide, rfl, rfl,
    ((startStudySession_create_failure (step initSys (Event.selectDeck "Spanish")).world ""
      (cardOk cardOne) (cardOk cardOne) (by decide) rfl).1 rfl none
      (some "Deck has no cards")).1,
    ((startStudySession_create_failure (step initSys (Event.selectDeck "Spanish")).world ""
      (cardOk cardOne) (cardOk cardOne) (by decide) rfl).2
      (some { status := 400, error := some "Deck has no cards" }) true "").2.2.trans
      (by decide)⟩

/-! ## The navigation guard -/

/-- C6: when the host bridge reports an active session and denies the
confirmation, `handleNavigation(destination)` returns normally having only
asked the bridge: the component state (view, current session, review card,
rating, timer) is unchanged, the live intervals are unchanged, no request is
sent, in particular no end-session request, and nothing is shown. -/
theorem handleNavigation_denied (snap : AppState) (destination : View) (saved : Answer Unit)
    (w : World) :
    ∃ w2 : World,
      handleNavigation snap (some { active := true, confirm := false }) destination saved w =
        Except.ok w2 ∧
      w2.st = w.st ∧ w2.live = w.live ∧ w2.nextId = w.nextId ∧ w2.requests = w.requests ∧
      w2.alerts = w.alerts ∧ w2.expiries = w.expiries ∧
      w2.hostCalls = w.hostCalls ++ [HostCall.checkActiveSession, HostCall.confirmNavigation] :=
  ⟨hostCall HostCall.confirmNavigation (hostCall HostCall.checkActiveSession w),
    by simp [handleNavigation], rfl, rfl, rfl, rfl, rfl, rfl, by simp [hostCall]⟩

/-! ## Ending a session -/

/-- C4 as stated fails: the session of `toFront` is current, the first
end-session request is rejected, and the second call of `endStudySession`
sends a second end-session request. -/
theorem endStudySession_second_request_after_failure :
    (endSessionClick (Answer.resolved ())
      (endSessionClick (Answer.rejected none true "Network Error")
        (run toFront).world)).requests.count (Request.endSession 7) = 2 := by
  decide

/-- C4 amended: with no current session `endStudySession` returns the world
unchanged.  With a session `s` current: when the end-session request is
answered, the session is cleared after exactly one end-session request, and a
second call returns the world unchanged, so no second request is sent; when
the request is rejected only the request log has grown, the session is still
current, and a second call sends a second end-session request.  The function
returns in every case. -/
theorem endStudySession_twice (w : World) (ended2 : Answer Unit) :
    (w.st.currentSession = none → ∀ ended : Answer Unit, endStudySession w.st ended w = w) ∧
    (∀ s : Session, w.st.currentSession = some s →
      ((endSessionClick (Answer.resolved ()) w).requests =
          w.requests ++ [Request.endSession s.id,
            Request.listSessions (if truthyStr w.st.currentDeck then w.st.currentDeck else none)] ∧
        (endSessionClick (Answer.resolved ()) w).st.currentSession = none ∧
        endSessionClick ended2 (endSessionClick (Answer.resolved ()) w) =
          endSessionClick (Answer.resolved ()) w) ∧
      (∀ (r : Option ErrorResponse) (q : Bool) (m : String),
        endSessionClick (Answer.rejected r q m) w = send (Request.endSession s.id) w ∧
        (endSessionClick (Answer.rejected r q m) w).st.currentSession = some s ∧
        w.requests ++ [Request.endSession s.id, Request.endSession s.id] <+:
          (endSessionClick ended2 (endSessionClick (Answer.rejected r q m) w)).requests)) := by
  refine ⟨?_, ?_⟩
  · intro hnone ended
    simp [endStudySession, hnone]
  · intro s hs
    have hrej : ∀ (r : Option ErrorResponse) (q : Bool) (m : String),
        endSessionClick (Answer.rejected r q m) w = send (Request.endSession s.id) w := by
      intro r q m
      simp [endSessionClick, endStudySession, hs, render, send]
    refine ⟨⟨?_, ?_, ?_⟩, ?_⟩
    · simp only [endSessionClick]
      rw [(render_timerOnly _ _).1]
      simp [endStudySession, hs, loadSessions, send, setView, setCurrentSession]
    · simp only [endSessionClick]
      rw [(render_timerOnly _ _).2.2.2.2.2.1]
      simp [endStudySession, hs, loadSessions, send, setView, setCurrentSession]
    · have hcleared : (endSessionClick (Answer.resolved ()) w).st.currentSession = none := by
        simp only [endSessionClick]
        rw [(render_timerOnly _ _).2.2.2.2.2.1]
        simp [endStudySession, hs, loadSessions, send, setView, setCurrentSession]
      generalize endSessionClick (Answer.resolved ()) w = w1 at hcleared
      simp [endSessionClick, endStudySession, hcleared, render]
    · intro r q m
      refine ⟨hrej r q m, ?_, ?_⟩
      · rw [hrej r q m]
        exact hs
      · rw [hrej r q m]
        have hs2 : (send (Request.endSession s.id) w).st.currentSession = some s := hs
        cases ended2 with
        | resolved u =>
          simp only [endSessionClick]
          rw [(render_timerOnly _ _).1]
          simp only [endStudySession, hs2, loadSessions]
          exact ⟨[Request.listSessions
            (if truthyStr w.st.currentDeck then w.st.currentDeck else none)],
            by simp [send, setView, setCurrentSession]⟩
        | rejected r2 q2 m2 =>
          simp only [endSessionClick]
          rw [(render_timerOnly _ _).1]
          simp only [endStudySession, hs2]
          exact ⟨[], by simp [send]⟩

/-- C4 amended, at mount (no session) and at the session of `toFront`. -/
theorem endStudySession_twice_witness :
    initWorld.st.currentSession = none ∧
    endStudySession initWorld.st (Answer.resolved ()) initWorld = initWorld ∧
    (run toFront).world.st.currentSession = some sessionSeven ∧
    (endSessionClick (Answer.resolved ()) (run toFront).world).st.currentSession = none :=
  ⟨rfl,
    (endStudySession_twice initWorld (Answer.resolved ())).1 rfl (Answer.resolved ()),
    by decide,
    ((endStudySession_twice (run toFront).world (Answer.resolved ())).2 sessionSeven
      (by decide)).1.2.1⟩

/-! ## The pending rating -/

/-- A world with the same rating and the same request log is as good. -/
theorem RatingOk.of_eq {a b : World} (hr : b.requests = a.requests)
    (hs : b.st.rating = a.st.rating) (ha : RatingOk a) : RatingOk b := by
  unfold RatingOk at *
  rw [hr, hs]
  exact ha

/-- A change of the timer only keeps the ratings. -/
theorem RatingOk.of_timerOnly {a b : World} (hab : TimerOnly a b) (ha : RatingOk a) :
    RatingOk b :=
  RatingOk.of_eq hab.1 hab.2.2.2.2.2.2.2.2.1 ha

/-- Putting the rating back to 10 keeps the ratings. -/
theorem RatingOk.setRating_ten {w : World} (hw : RatingOk w) : RatingOk (setRating 10 w) :=
  ⟨⟨show (0 : Int) ≤ 10 by decide, show (10 : Int) ≤ 10 from le_refl _⟩, hw.2⟩

/-- A rating within 0..10 stored by the slider keeps the ratings. -/
theorem RatingOk.slider {w : World} (v : Int) (hv : 0 ≤ v ∧ v ≤ 10) (hw : RatingOk w) :
    RatingOk (ratingSliderChange v w) :=
  ⟨hv, hw.2⟩

/-- A request that carries a rating within 0..10, or none, keeps the ratings. -/
theorem RatingOk.send {w : World} (req : Request)
    (hreq : ∀ (deck : Option String) (id : Nat) (r : Int) (sid : Option Nat),
      req = Request.review deck id r sid → 0 ≤ r ∧ r ≤ 10)
    (hw : RatingOk w) : RatingOk (Flashcards.send req w) := by
  refine ⟨hw.1, ?_⟩
  intro deck id r sid hmem
  have hmem2 : Request.review deck id r sid ∈ w.requests ++ [req] := hmem
  rcases List.mem_append.mp hmem2 with hold | hnew
  · exact hw.2 deck id r sid hold
  · exact hreq deck id r sid (List.mem_singleton.mp hnew).symm

/-- The answer to a fetch keeps the ratings. -/
theorem RatingOk.getNextCardAnswer {w : World} (ans : Answer CardReply) (hw : RatingOk w) :
    RatingOk (Flashcards.getNextCardAnswer ans w).1 := by
  cases ans with
  | resolved data =>
    by_cases hok : (data.success && data.next_card.isSome) = true
    · simp only [Flashcards.getNextCardAnswer, hok, if_true]
      exact RatingOk.setRating_ten (RatingOk.of_eq rfl rfl hw)
    · simp only [Flashcards.getNextCardAnswer, hok]
      exact RatingOk.of_eq rfl rfl hw
  | rejected r q m => exact RatingOk.of_eq rfl rfl hw

/-- The function `getNextCard` keeps the ratings. -/
theorem RatingOk.getNextCard {w : World} (snap : AppState) (ans : Answer CardReply)
    (hw : RatingOk w) : RatingOk (Flashcards.getNextCard snap ans w).1 := by
  by_cases hdeck : truthyStr snap.currentDeck = true
  · simp only [Flashcards.getNextCard, hdeck, Bool.not_true, Bool.false_eq_true, if_false]
    exact RatingOk.getNextCardAnswer ans
      (RatingOk.send _ (fun _ _ _ _ h => by cases h) hw)
  · simp only [Flashcards.getNextCard, hdeck, Bool.not_false, if_true]
    exact hw

/-- The first part of `startStudySession` keeps the ratings. -/
theorem RatingOk.startStudySessionCreate {w : World} (snap : AppState)
    (sessionName : Option String) (created : Answer SessionReply) (hw : RatingOk w) :
    RatingOk (Flashcards.startStudySessionCreate snap sessionName created w).world := by
  have hsend : ∀ name : String, RatingOk (Flashcards.send
      (Request.createSession (snap.currentDeck.getD "")
        (if name != "" then some name else none)) w) :=
    fun name => RatingOk.send _ (fun _ _ _ _ h => by cases h) hw
  cases sessionName with
  | none => exact RatingOk.of_eq rfl rfl hw
  | some name =>
    by_cases hdeck : truthyStr snap.currentDeck = true
    · cases created with
      | resolved data =>
        by_cases hok : data.success = true
        · simp only [Flashcards.startStudySessionCreate, hdeck, hok, Bool.not_true,
            Bool.false_eq_true, if_false, if_true, Created.world]
          exact RatingOk.of_eq rfl rfl (hsend name)
        · simp only [Flashcards.startStudySessionCreate, hdeck, hok, Bool.not_true,
            Bool.false_eq_true, if_false, Created.world]
          exact RatingOk.of_eq rfl rfl (hsend name)
      | rejected r q m =>
        simp only [Flashcards.startStudySessionCreate, hdeck, Bool.not_true,
          Bool.false_eq_true, if_false, Created.world]
        exact RatingOk.of_eq rfl rfl (hsend name)
    · simp only [Flashcards.startStudySessionCreate, hdeck, Bool.not_false, if_true,
        Created.world]
      exact RatingOk.of_eq rfl rfl hw

/-- The first fetch of `startStudySession` keeps the ratings. -/
theorem RatingOk.startStudySessionFirst {w : World} (snap : AppState)
    (first : Answer CardReply) (hw : RatingOk w) :
    RatingOk (Flashcards.startStudySessionFirst snap first w).1 := by
  have hbase : RatingOk (resetTimer snap (setView View.review w)) :=
    RatingOk.of_timerOnly (resetTimer_timerOnly snap _) (RatingOk.of_eq rfl rfl hw)
  have hget := RatingOk.getNextCard snap first hbase
  unfold Flashcards.startStudySessionFirst
  simp only
  split
  · exact hget
  · exact RatingOk.of_timerOnly (startTimer_timerOnly snap _) hget

/-- The retry of `startStudySession` keeps the ratings. -/
theorem RatingOk.startStudySessionRetry {w : World} (snap : AppState)
    (second : Answer CardReply) (hw : RatingOk w) :
    RatingOk (Flashcards.startStudySessionRetry snap second w) := by
  have hget := RatingOk.getNextCard snap second hw
  unfold Flashcards.startStudySessionRetry
  simp only
  split
  · cases second with
    | resolved data => exact hget
    | rejected r q m => exact RatingOk.of_eq rfl rfl hget
  · exact RatingOk.of_timerOnly (startTimer_timerOnly snap _) hget

/-- The function `startStudySession` keeps the ratings. -/
theorem RatingOk.startStudySession {w : World} (sessionName : Option String)
    (created : Answer SessionReply) (first second : Answer CardReply) (hw : RatingOk w) :
    RatingOk (Flashcards.startStudySession sessionName created first second w) := by
  have hc := RatingOk.startStudySessionCreate w.st sessionName created hw
  unfold Flashcards.startStudySession
  cases hcase : Flashcards.startStudySessionCreate w.st sessionName created w with
  | over w1 =>
    rw [hcase] at hc
    exact RatingOk.of_timerOnly (render_timerOnly _ _) hc
  | fetching w1 =>
    rw [hcase] at hc
    have hf := RatingOk.startStudySessionFirst w.st first hc
    simp only
    split
    · exact RatingOk.of_timerOnly (render_timerOnly _ _)
        (RatingOk.startStudySessionRetry w.st second
          (RatingOk.of_timerOnly (render_timerOnly _ _) hf))
    · exact RatingOk.of_timerOnly (render_timerOnly _ _) hf

/-- The answer to a review keeps the ratings. -/
theorem RatingOk.handleReviewAnswer {w : World} (snap : AppState) (ans : Answer CardReply)
    (hw : RatingOk w) : RatingOk (Flashcards.handleReviewAnswer snap ans w) := by
  cases ans with
  | resolved data =>
    by_cases hok : (data.success && data.next_card.isSome) = true
    · simp only [Flashcards.handleReviewAnswer, hok, if_true]
      refine RatingOk.of_timerOnly (startTimer_timerOnly snap _) (RatingOk.setRating_ten ?_)
      refine RatingOk.of_eq rfl rfl (?_ : RatingOk (resetTimer snap (stopTimer snap w)))
      exact RatingOk.of_timerOnly
        ((stopTimer_timerOnly snap w).trans (resetTimer_timerOnly snap _)) hw
    · have hno : (data.success && data.next_card.isSome) = false := by
        simpa using hok
      simp only [Flashcards.handleReviewAnswer, hno, Bool.false_eq_true, if_false]
      split
      · exact RatingOk.of_eq rfl rfl hw
      · exact RatingOk.of_eq rfl rfl hw
  | rejected r q m =>
    cases r with
    | none => exact RatingOk.of_eq rfl rfl hw
    | some resp =>
      simp only [Flashcards.handleReviewAnswer]
      split
      · exact RatingOk.of_eq rfl rfl hw
      · exact RatingOk.of_eq rfl rfl hw

/-- The interval callback keeps the ratings. -/
theorem RatingOk.intervalTick {w : World} (h : Nat) (hw : RatingOk w) :
    RatingOk (Flashcards.intervalTick h w) := by
  unfold Flashcards.intervalTick
  split
  · split
    · exact RatingOk.of_eq rfl rfl hw
    · exact RatingOk.of_eq rfl rfl hw
  · exact hw

/-- The rating slider holds a value within 0..10, whatever it is asked for: a
value below 0 becomes 0, a value above 10 becomes 10, any other is kept. -/
theorem rangeValue_rating (raw : Int) :
    (0 ≤ rangeValue 0 10 raw ∧ rangeValue 0 10 raw ≤ 10) ∧
    (raw < 0 → rangeValue 0 10 raw = 0) ∧
    (10 < raw → rangeValue 0 10 raw = 10) ∧
    (0 ≤ raw → raw ≤ 10 → rangeValue 0 10 raw = raw) := by
  unfold rangeValue
  refine ⟨?_, ?_, ?_, ?_⟩
  · split
    · exact ⟨le_refl _, by decide⟩
    · split
      · exact ⟨by decide, le_refl _⟩
      · constructor <;> omega
  · intro h
    simp [h]
  · intro h
    have h0 : ¬ raw < 0 := by omega
    simp [h0, h]
  · intro h0 h10
    have hlow : ¬ raw < 0 := by omega
    have hhigh : ¬ 10 < raw := by omega
    simp [hlow, hhigh]

/-- One event keeps the ratings. -/
theorem RatingOk.step {s : Sys} (e : Event) (hs : RatingOk s.world) :
    RatingOk (Flashcards.step s e).world := by
  cases e with
  | selectDeck deck =>
    simp only [Flashcards.step]
    split
    · exact RatingOk.of_eq rfl rfl hs
    · exact hs
  | study sessionName created first second =>
    simp only [Flashcards.step]
    split
    · split
      · exact RatingOk.startStudySession sessionName created first second hs
      · exact RatingOk.of_eq rfl rfl hs
    · exact hs
  | timerButton =>
    simp only [Flashcards.step]
    split
    · split
      · exact RatingOk.of_timerOnly (stopTimer_timerOnly _ _) hs
      · exact RatingOk.of_timerOnly (startTimer_timerOnly _ _) hs
    · exact hs
  | resetButton =>
    simp only [Flashcards.step]
    split
    · exact RatingOk.of_timerOnly (resetTimer_timerOnly _ _) hs
    · exact hs
  | tick h => exact RatingOk.intervalTick h hs
  | reveal =>
    simp only [Flashcards.step]
    split
    · exact RatingOk.of_timerOnly (stopTimer_timerOnly _ _)
        (RatingOk.of_eq rfl rfl hs : RatingOk (setShowBack true s.world))
    · exact hs
  | slider value =>
    simp only [Flashcards.step]
    split
    · exact RatingOk.slider (rangeValue 0 10 value) (rangeValue_rating value).1 hs
    · exact hs
  | submit =>
    simp only [Flashcards.step]
    split
    · split
      · refine RatingOk.send _ ?_ hs
        intro deck id r sid hreq
        simp only [reviewRequest, Request.review.injEq] at hreq
        rw [← hreq.2.2.1]
        exact hs.1
      · exact hs
    · exact hs
  | submitAnswer ans =>
    simp only [Flashcards.step]
    split
    · exact hs
    · exact RatingOk.of_timerOnly (render_timerOnly _ _)
        (RatingOk.handleReviewAnswer _ ans hs)

/-- Any sequence of events keeps the ratings. -/
theorem RatingOk.foldl (evs : List Event) :
    ∀ s : Sys, RatingOk s.world → RatingOk (evs.foldl Flashcards.step s).world := by
  induction evs with
  | nil =>
    intro s hs
    exact hs
  | cons e rest ih =>
    intro s hs
    exact ih (Flashcards.step s e) (RatingOk.step e hs)

/-- C7: the pending rating is always within 0..10.  It starts at 10; a new
card, from `getNextCard` or from `handleReview`, puts it back to 10; a value
outside 0..10 asked of the rating slider is clamped, to 0 below and to 10
above, and a value within 0..10 is stored as it is; so after every sequence of
events the pending rating lies within 0..10, and so does every rating
`handleReview` has sent. -/
theorem rating_always_in_range (evs : List Event) :
    initState.rating = 10 ∧
    (∀ (snap : AppState) (w : World) (data : CardReply) (c : Card),
      data.success = true → data.next_card = some c →
      (getNextCardAnswer (Answer.resolved data) w).1.st.rating = 10 ∧
      (handleReviewAnswer snap (Answer.resolved data) w).st.rating = 10) ∧
    (∀ (raw : Int) (w : World),
      (0 ≤ (ratingSlider raw w).st.rating ∧ (ratingSlider raw w).st.rating ≤ 10) ∧
      (raw < 0 → (ratingSlider raw w).st.rating = 0) ∧
      (10 < raw → (ratingSlider raw w).st.rating = 10) ∧
      (0 ≤ raw → raw ≤ 10 → (ratingSlider raw w).st.rating = raw)) ∧
    (0 ≤ (run evs).world.st.rating ∧ (run evs).world.st.rating ≤ 10) ∧
    (∀ (deck : Option String) (id : Nat) (r : Int) (sid : Option Nat),
      Request.review deck id r sid ∈ (run evs).world.requests → 0 ≤ r ∧ r ≤ 10) := by
  have hinit : RatingOk initSys.world :=
    ⟨⟨show (0 : Int) ≤ 10 by decide, show (10 : Int) ≤ 10 from le_refl _⟩,
      fun _ _ _ _ h => by cases h⟩
  have hrun : RatingOk (run evs).world := RatingOk.foldl evs initSys hinit
  refine ⟨rfl, ?_, fun raw _ => rangeValue_rating raw, hrun.1, hrun.2⟩
  intro snap w data c hs hc
  refine ⟨?_, ?_⟩
  · simp [getNextCardAnswer, hs, hc, setRating]
  · simp only [handleReviewAnswer, hs, hc, Option.isSome_some, Bool.and_self, if_true]
    rw [(startTimer_timerOnly snap _).2.2.2.2.2.2.2.2.1]
    rfl

/-- C7 on a session in which 11 is asked of the slider before the review is
submitted: the slider holds 10, and 10 is what the review request carries; a
new card puts the rating back to 10. -/
theorem rating_always_in_range_witness :
    (10 : Int) < 11 ∧
    (ratingSlider 11 (run (toFront ++ [Event.reveal])).world).st.rating = 10 ∧
    (0 : Int) ≤ 7 ∧ (7 : Int) ≤ 10 ∧
    (ratingSlider 7 (run (toFront ++ [Event.reveal])).world).st.rating = 7 ∧
    (Request.review (some "Spanish") 1 10 (some 7) ∈
      (run (toFront ++ [Event.reveal, Event.slider 11, Event.submit])).world.requests ∧
      (0 : Int) ≤ 10 ∧ (10 : Int) ≤ 10) ∧
    (handleReviewAnswer (run (toFront ++ [Event.reveal])).world.st
      (Answer.resolved { success := true, next_card := some cardTwo, error := none })
      (run (toFront ++ [Event.reveal, Event.slider 7])).world).st.rating = 10 :=
  ⟨by decide,
    ((rating_always_in_range []).2.2.1 11 (run (toFront ++ [Event.reveal])).world).2.2.1
      (by decide),
    by decide, by decide,
    ((rating_always_in_range []).2.2.1 7 (run (toFront ++ [Event.reveal])).world).2.2.2
      (by decide) (by decide),
    ⟨by decide,
      (rating_always_in_range (toFront ++ [Event.reveal, Event.slider 11, Event.submit])).2.2.2.2
        (some "Spanish") 1 10 (some 7) (by decide)⟩,
    ((rating_always_in_range []).2.1 (run (toFront ++ [Event.reveal])).world.st
      (run (toFront ++ [Event.reveal, Event.slider 7])).world
      { success := true, next_card := some cardTwo, error := none } cardTwo rfl rfl).2⟩

/-! ## The end of the cards -/

/-- C10 as stated fails: after a success without a next card the view is still
`review` and only an error is shown; after an answer that reports no more
cards the view is `decks`; in both cases the session is still current and no
end-session request was sent. -/
theorem handleReview_without_card_keeps_session :
    (run (toFront ++ [Event.reveal, Event.submit,
      Event.submitAnswer successWithoutCard])).world.st.view = View.review ∧
    (run (toFront ++ [Event.reveal, Event.submit,
      Event.submitAnswer successWithoutCard])).world.alerts =
        ["Error: Could not load next card. Please try again."] ∧
    (run (toFront ++ [Event.reveal, Event.submit,
      Event.submitAnswer successWithoutCard])).world.st.currentSession = some sessionSeven ∧
    (run (toFront ++ [Event.reveal, Event.submit,
      Event.submitAnswer noMoreCards])).world.st.view = View.decks ∧
    (run (toFront ++ [Event.reveal, Event.submit,
      Event.submitAnswer noMoreCards])).world.st.currentSession = some sessionSeven ∧
    (run (toFront ++ [Event.reveal, Event.submit,
      Event.submitAnswer noMoreCards])).world.requests =
        [Request.createSession "Spanish" none, Request.nextCard "Spanish",
          Request.review (some "Spanish") 1 10 (some 7)] := by
  decide

/-- C10 amended: `handleReview` on an answer without a next card (success or
not) sends its review request and no other, so no end-session request, and
leaves the current session current.  When the error of the answer contains
`No more cards`, the error and the completion message are shown and the view
becomes `decks`; otherwise only the error is shown and the component state is
unchanged. -/
theorem handleReview_without_next_card (snap : AppState) (w : World) (card : Card)
    (data : CardReply) (hcard : snap.reviewCard = some card)
    (hno : (data.success && data.next_card.isSome) = false) :
    (handleReview snap (Answer.resolved data) w).requests =
      w.requests ++ [reviewRequest snap card] ∧
    (handleReview snap (Answer.resolved data) w).st.currentSession = w.st.currentSession ∧
    ((truthyStr data.error && includes (data.error.getD "") "No more cards") = true →
      (handleReview snap (Answer.resolved data) w).st.view = View.decks ∧
      (handleReview snap (Answer.resolved data) w).alerts =
        w.alerts ++
          ["Error: " ++ orDefault data.error "Could not load next card. Please try again.",
            "You have completed all available cards in this deck!"]) ∧
    ((truthyStr data.error && includes (data.error.getD "") "No more cards") = false →
      (handleReview snap (Answer.resolved data) w).st = w.st ∧
      (handleReview snap (Answer.resolved data) w).alerts =
        w.alerts ++
          ["Error: " ++ orDefault data.error "Could not load next card. Please try again."]) := by
  by_cases hmore : (truthyStr data.error && includes (data.error.getD "") "No more cards") = true
  · simp [handleReview, hcard, handleReviewAnswer, hno, hmore, setView, alert, send]
  · have hmore2 : (truthyStr data.error && includes (data.error.getD "") "No more cards") =
        false := by simpa using hmore
    simp only [handleReview, hcard, handleReviewAnswer, hno, hmore2, Bool.false_eq_true,
      if_false]
    simp [alert, send]

/-- C10 amended, on the back of `cardOne` in the session of `toFront`, the
answer being a success without a next card. -/
theorem handleReview_without_next_card_witness :
    (run (toFront ++ [Event.reveal])).world.st.reviewCard = some cardOne ∧
    (handleReview (run (toFront ++ [Event.reveal])).world.st successWithoutCard
      (run (toFront ++ [Event.reveal])).world).st.currentSession = some sessionSeven :=
  ⟨by decide,
    ((handleReview_without_next_card (run (toFront ++ [Event.reveal])).world.st
      (run (toFront ++ [Event.reveal])).world cardOne
      { success := true, next_card := none, error := none } (by decide) rfl).2.1).trans
      (by decide)⟩

/-! ## A failed review -/

/-- C11 as stated fails: the review request is rejected with status 500; the
error is shown and the view is `decks`, but the session is still current and no
end-session request was sent. -/
theorem handleReview_fatal_keeps_session :
    (run (toFront ++ [Event.reveal, Event.submit,
      Event.submitAnswer serverError])).world.st.view = View.decks ∧
    (run (toFront ++ [Event.reveal, Event.submit,
      Event.submitAnswer serverError])).world.alerts = ["Internal Server Error"] ∧
    (run (toFront ++ [Event.reveal, Event.submit,
      Event.submitAnswer serverError])).world.st.currentSession = some sessionSeven ∧
    (run (toFront ++ [Event.reveal, Event.submit,
      Event.submitAnswer serverError])).world.requests =
        [Request.createSession "Spanish" none, Request.nextCard "Spanish",
          Request.review (some "Spanish") 1 10 (some 7)] := by
  decide

/-- C11 amended: when the review request is rejected with an error response of
status 500 or more, `handleReview` shows the error and sets the view to
`decks`; it sends its review request and no other, so no end-session request,
and the current session stays current. -/
theorem handleReview_fatal (snap : AppState) (w : World) (card : Card) (r : ErrorResponse)
    (q : Bool) (m : String) (hcard : snap.reviewCard = some card) (hfatal : 500 ≤ r.status) :
    (handleReview snap (Answer.rejected (some r) q m) w).alerts =
      w.alerts ++ [reviewErrorMsg (some r)] ∧
    (handleReview snap (Answer.rejected (some r) q m) w).st.view = View.decks ∧
    (handleReview snap (Answer.rejected (some r) q m) w).st.currentSession =
      w.st.currentSession ∧
    (handleReview snap (Answer.rejected (some r) q m) w).requests =
      w.requests ++ [reviewRequest snap card] := by
  have hge : r.status ≥ 500 := hfatal
  simp [handleReview, hcard, handleReviewAnswer, hge, setView, alert, send]

/-- C11 amended, on the back of `cardOne` in the session of `toFront`, the
review request being rejected with status 500. -/
theorem handleReview_fatal_witness :
    (run (toFront ++ [Event.reveal])).world.st.reviewCard = some cardOne ∧
    (500 : Nat) ≤ 500 ∧
    (handleReview (run (toFront ++ [Event.reveal])).world.st serverError
      (run (toFront ++ [Event.reveal])).world).st.view = View.decks :=
  ⟨by decide, le_refl _,
    (handleReview_fatal (run (toFront ++ [Event.reveal])).world.st
      (run (toFront ++ [Event.reveal])).world cardOne
      { status := 500, error := some "Internal Server Error" } true
      "Request failed with status code 500" (by decide) (le_refl _)).2.1⟩

/-- C12: when the review request is rejected without a response, or with an
error response of status below 500, `handleReview` shows the error and changes
nothing else: the component state (view, review card, revealed flag, pending
rating, current session, timer) and the live intervals are as before, the
render that follows runs no effect, and `handleReview` run again from that
state sends the same review request. -/
theorem handleReview_nonfatal (snap : AppState) (w : World) (card : Card)
    (response : Option ErrorResponse) (q : Bool) (m : String)
    (hcard : snap.reviewCard = some card)
    (hnonfatal : ∀ r : ErrorResponse, response = some r → r.status < 500) :
    (handleReview snap (Answer.rejected response q m) w).alerts =
      w.alerts ++ [reviewErrorMsg response] ∧
    (handleReview snap (Answer.rejected response q m) w).st = w.st ∧
    (handleReview snap (Answer.rejected response q m) w).live = w.live ∧
    (handleReview snap (Answer.rejected response q m) w).requests =
      w.requests ++ [reviewRequest snap card] ∧
    render w.st.view (handleReview snap (Answer.rejected response q m) w) =
      handleReview snap (Answer.rejected response q m) w ∧
    (∀ ans : Answer CardReply,
      ∃ w2 : World,
        handleReview snap ans (handleReview snap (Answer.rejected response q m) w) =
          handleReviewAnswer snap ans w2 ∧
        w2.requests = w.requests ++ [reviewRequest snap card, reviewRequest snap card]) := by
  have hkey : handleReview snap (Answer.rejected response q m) w =
      alert (reviewErrorMsg response) (send (reviewRequest snap card) w) := by
    cases response with
    | none => simp [handleReview, hcard, handleReviewAnswer]
    | some r =>
      have hlt : ¬ r.status ≥ 500 := not_le.mpr (hnonfatal r rfl)
      simp [handleReview, hcard, handleReviewAnswer, hlt]
  rw [hkey]
  refine ⟨rfl, rfl, rfl, rfl, ?_, ?_⟩
  · simp [render, alert, send]
  · intro ans
    refine ⟨send (reviewRequest snap card)
      (alert (reviewErrorMsg response) (send (reviewRequest snap card) w)), ?_, ?_⟩
    · simp [handleReview, hcard]
    · simp [send, alert]

/-- C12 on the back of `cardOne` in the session of `toFront`, the review
request being rejected with status 404. -/
theorem handleReview_nonfatal_witness :
    (run (toFront ++ [Event.reveal])).world.st.reviewCard = some cardOne ∧
    (∀ r : ErrorResponse,
      some ({ status := 404, error := some "Session not registered" } : ErrorResponse) = some r →
      r.status < 500) ∧
    (handleReview (run (toFront ++ [Event.reveal])).world.st notFound
      (run (toFront ++ [Event.reveal])).world).st = (run (toFront ++ [Event.reveal])).world.st :=
  have hlt : ∀ r : ErrorResponse,
      some ({ status := 404, error := some "Session not registered" } : ErrorResponse) = some r →
      r.status < 500 := by
    intro r hr
    cases hr
    decide
  ⟨by decide, hlt,
    (handleReview_nonfatal (run (toFront ++ [Event.reveal])).world.st
      (run (toFront ++ [Event.reveal])).world cardOne
      (some { status := 404, error := some "Session not registered" }) true
      "Request failed with status code 404" (by decide) hlt).2.1⟩

/-! ## The card after an answer -/

/-- The answer to a fetch leaves the card, or puts the card it carries. -/
theorem getNextCardAnswer_card (ans : Answer CardReply) (w : World) :
    (getNextCardAnswer ans w).1.st.reviewCard = w.st.reviewCard ∨
    ∃ (data : CardReply) (c : Card), ans = Answer.resolved data ∧ data.next_card = some c ∧
      (getNextCardAnswer ans w).1.st.reviewCard = some c := by
  cases ans with
  | resolved data =>
    by_cases hok : (data.success && data.next_card.isSome) = true
    · right
      have hsome : data.next_card.isSome = true := by
        simp only [Bool.and_eq_true] at hok
        exact hok.2
      obtain ⟨c, hc⟩ := Option.isSome_iff_exists.mp hsome
      have hsucc : data.success = true := by
        simp only [Bool.and_eq_true] at hok
        exact hok.1
      refine ⟨data, c, rfl, hc, ?_⟩
      simp [getNextCardAnswer, hsucc, hc, setRating, setShowBack, setReviewCard]
    · left
      simp [getNextCardAnswer, hok, setView, alert]
  | rejected r q m =>
    left
    rfl

/-- The answer to a review leaves the card, or puts the card it carries. -/
theorem handleReviewAnswer_card (snap : AppState) (ans : Answer CardReply) (w : World) :
    (handleReviewAnswer snap ans w).st.reviewCard = w.st.reviewCard ∨
    ∃ (data : CardReply) (c : Card), ans = Answer.resolved data ∧ data.next_card = some c ∧
      (handleReviewAnswer snap ans w).st.reviewCard = some c := by
  cases ans with
  | resolved data =>
    by_cases hok : (data.success && data.next_card.isSome) = true
    · right
      have hsome : data.next_card.isSome = true := by
        simp only [Bool.and_eq_true] at hok
        exact hok.2
      obtain ⟨c, hc⟩ := Option.isSome_iff_exists.mp hsome
      refine ⟨data, c, rfl, hc, ?_⟩
      simp only [handleReviewAnswer, hok, if_true]
      rw [(startTimer_timerOnly snap _).2.2.2.2.2.2.1]
      exact hc
    · left
      have hno : (data.success && data.next_card.isSome) = false := by
        simpa using hok
      simp only [handleReviewAnswer, hno, Bool.false_eq_true, if_false]
      split <;> rfl
  | rejected r q m =>
    left
    cases r with
    | none => rfl
    | some resp =>
      simp only [handleReviewAnswer]
      split <;> rfl

/-- C13 as stated fails: a success without a next card answered to
`handleReview` is not treated as fatal, the view is still `review`; the card on
screen is still `cardOne`. -/
theorem handleReview_success_without_card_stays_in_review :
    (run (toFront ++ [Event.reveal, Event.submit,
      Event.submitAnswer successWithoutCard])).world.st.view = View.review ∧
    (run (toFront ++ [Event.reveal, Event.submit,
      Event.submitAnswer successWithoutCard])).world.st.reviewCard = some cardOne := by
  decide

/-- C13 amended: after `getNextCard` and after `handleReview` the review card is
the previous one or the next card the answer carries.  A success without a
next card leaves the card as it is and does not throw; `getNextCard` shows an
error and sets the view to `decks`; `handleReview` shows an error, and sets the
view to `decks` only when the error of the answer contains `No more cards`,
leaving the view as it is otherwise. -/
theorem review_card_previous_or_next (snap : AppState) (ans : Answer CardReply) (w : World)
    (err : Option String) :
    ((getNextCard snap ans w).1.st.reviewCard = w.st.reviewCard ∨
      ∃ (data : CardReply) (c : Card), ans = Answer.resolved data ∧ data.next_card = some c ∧
        (getNextCard snap ans w).1.st.reviewCard = some c) ∧
    ((handleReview snap ans w).st.reviewCard = w.st.reviewCard ∨
      ∃ (data : CardReply) (c : Card), ans = Answer.resolved data ∧ data.next_card = some c ∧
        (handleReview snap ans w).st.reviewCard = some c) ∧
    getNextCardAnswer
        (Answer.resolved { success := true, next_card := none, error := err }) w =
      (setView View.decks
        (alert "Error: Could not load next card. The response format was invalid." w), false) ∧
    (handleReviewAnswer snap
        (Answer.resolved { success := true, next_card := none, error := err }) w).st.reviewCard =
      w.st.reviewCard ∧
    (handleReviewAnswer snap
        (Answer.resolved { success := true, next_card := none, error := err }) w).st.view =
      (if truthyStr err && includes (err.getD "") "No more cards" then View.decks
        else w.st.view) ∧
    (∃ rest : List String,
      (handleReviewAnswer snap
        (Answer.resolved { success := true, next_card := none, error := err }) w).alerts =
      w.alerts ++
        ("Error: " ++ orDefault err "Could not load next card. Please try again.") :: rest) := by
  refine ⟨?_, ?_, ?_, ?_, ?_, ?_⟩
  · by_cases hdeck : truthyStr snap.currentDeck = true
    · simp only [getNextCard, hdeck, Bool.not_true, Bool.false_eq_true, if_false]
      exact getNextCardAnswer_card ans _
    · left
      simp [getNextCard, hdeck]
  · cases hcard : snap.reviewCard with
    | none =>
      left
      simp [handleReview, hcard, alert]
    | some card =>
      simp only [handleReview, hcard]
      exact handleReviewAnswer_card snap ans _
  · simp [getNextCardAnswer]
  · by_cases hmore : (truthyStr err && includes (err.getD "") "No more cards") = true
    · simp [handleReviewAnswer, hmore, setView, alert]
    · simp [handleReviewAnswer, hmore, alert]
  · by_cases hmore : (truthyStr err && includes (err.getD "") "No more cards") = true
    · simp [handleReviewAnswer, hmore, setView, alert]
    · simp [handleReviewAnswer, hmore, alert]
  · by_cases hmore : (truthyStr err && includes (err.getD "") "No more cards") = true
    · exact ⟨["You have completed all available cards in this deck!"],
        by simp [handleReviewAnswer, hmore, setView, alert]⟩
    · exact ⟨[], by simp [handleReviewAnswer, hmore, alert]⟩

/-! ## Navigation granted, and navigation without a bridge -/

/-- The function `endAndSaveSession` leaves the component state as it is: it
only sends its request and calls the bridge. -/
theorem endAndSaveSession_state (snap : AppState) (saved : Answer Unit) (w : World) :
    (endAndSaveSession snap saved w).st = w.st ∧
    (endAndSaveSession snap saved w).live = w.live := by
  unfold endAndSaveSession
  cases snap.currentSession with
  | none => exact ⟨rfl, rfl⟩
  | some s =>
    by_cases hid : (s.id != 0) = true
    · cases saved with
      | resolved u => simp [hid, hostCall, send]
      | rejected r q m => simp [hid, send]
    · simp [hid]

/-- When the bridge reports an active session and grants the confirmation,
`handleNavigation` returns with the view set to the destination and every other
state variable, the current session included, as it was. -/
theorem handleNavigation_granted_state (snap : AppState) (destination : View)
    (saved : Answer Unit) (w : World) :
    ∃ w2 : World,
      handleNavigation snap (some { active := true, confirm := true }) destination saved w =
        Except.ok w2 ∧
      w2.st = { w.st with view := destination } ∧ w2.live = w.live := by
  refine ⟨setView destination (endAndSaveSession snap saved
    (hostCall HostCall.confirmNavigation (hostCall HostCall.checkActiveSession w))), ?_, ?_, ?_⟩
  · simp [handleNavigation]
  · show { (endAndSaveSession snap saved _).st with view := destination } = _
    rw [(endAndSaveSession_state snap saved _).1]
    rfl
  · show (endAndSaveSession snap saved _).live = _
    rw [(endAndSaveSession_state snap saved _).2]
    rfl

/-- C14, the code at the failing input: `sessionSeven` is current, the bridge
reports an active session and grants the confirmation, the destination is the
deck list and the request of `endAndSaveSession` is answered.  The request and
the bridge call `endSession` are made and the view is the deck list, but the
session is still current: `endAndSaveSession` never calls
`setCurrentSession(null)`. -/
theorem handleNavigation_granted_keeps_session :
    ∃ w2 : World,
      handleNavigation (run toFront).world.st (some { active := true, confirm := true })
        View.decks (Answer.resolved ()) (run toFront).world = Except.ok w2 ∧
      w2.st.view = View.decks ∧
      w2.st.currentSession = some sessionSeven ∧
      w2.requests = [Request.createSession "Spanish" none, Request.nextCard "Spanish",
        Request.sessionsEnd 7] ∧
      w2.hostCalls = [HostCall.checkActiveSession, HostCall.confirmNavigation,
        HostCall.endSession] :=
  ⟨setView View.decks (endAndSaveSession (run toFront).world.st (Answer.resolved ())
    (hostCall HostCall.confirmNavigation (hostCall HostCall.checkActiveSession
      (run toFront).world))),
    by simp [handleNavigation], by decide, by decide, by decide, by decide⟩

/-- The function `handleNavigation`, which no handler of the component calls,
reads `checkActiveSession` of the bridge without testing for the bridge: called
without a bridge it would throw a `TypeError`. -/
theorem handleNavigation_without_bridge_throws (snap : AppState) (destination : View)
    (saved : Answer Unit) (w : World) :
    handleNavigation snap none destination saved w = Except.error JsError.typeError :=
  rfl

/-! ## Starting without a deck -/

/-- The function `stopTimer` creates no interval and leaves the timer stopped. -/
theorem stopTimer_starts_nothing (snap : AppState) (w : World) :
    (stopTimer snap w).nextId = w.nextId ∧
    (∀ h : Nat, h ∈ (stopTimer snap w).live → h ∈ w.live) ∧
    (stopTimer snap w).st.isTimerRunning = false ∧
    (stopTimer snap w).st.timer = w.st.timer := by
  by_cases hh : truthyNum snap.timerInterval = true
  · refine ⟨?_, ?_, ?_, ?_⟩
    · simp [stopTimer, hh, setIsTimerRunning, setTimerInterval, clearInterval]
    · intro h hmem
      simp only [stopTimer, hh, if_true, setIsTimerRunning, setTimerInterval,
        clearInterval] at hmem
      exact (List.mem_filter.mp hmem).1
    · simp [stopTimer, hh, setIsTimerRunning, setTimerInterval, clearInterval]
    · simp [stopTimer, hh, setIsTimerRunning, setTimerInterval, clearInterval]
  · refine ⟨?_, ?_, ?_, ?_⟩
    · simp [stopTimer, hh, setIsTimerRunning]
    · intro h hmem
      simpa [stopTimer, hh, setIsTimerRunning] using hmem
    · simp [stopTimer, hh, setIsTimerRunning]
    · simp [stopTimer, hh, setIsTimerRunning]

/-- The function `resetTimer` creates no interval and leaves the timer stopped
at 60. -/
theorem resetTimer_starts_nothing (snap : AppState) (w : World) :
    (resetTimer snap w).nextId = w.nextId ∧
    (∀ h : Nat, h ∈ (resetTimer snap w).live → h ∈ w.live) ∧
    (resetTimer snap w).st.isTimerRunning = false ∧
    (resetTimer snap w).st.timer = 60 :=
  ⟨(stopTimer_starts_nothing snap w).1, (stopTimer_starts_nothing snap w).2.1,
    (stopTimer_starts_nothing snap w).2.2.1, rfl⟩

/-- A render creates no interval and starts no timer. -/
theorem render_starts_nothing (prev : View) (w : World) :
    (render prev w).nextId = w.nextId ∧
    (∀ h : Nat, h ∈ (render prev w).live → h ∈ w.live) ∧
    ((render prev w).st.isTimerRunning = true → w.st.isTimerRunning = true) := by
  unfold render viewEffect
  split
  · exact ⟨rfl, fun _ h => h, fun h => h⟩
  · split
    · have h1 := stopTimer_starts_nothing w.st w
      have h2 := resetTimer_starts_nothing w.st (stopTimer w.st w)
      refine ⟨h2.1.trans h1.1, fun h hmem => h1.2.1 h (h2.2.1 h hmem), ?_⟩
      intro hrun
      rw [h2.2.2.1] at hrun
      cases hrun
    · exact ⟨rfl, fun _ h => h, fun h => h⟩

/-- C16: `startStudySession` without a deck selected sends no request, so
neither create-session nor fetch, leaves the current session as it is, creates
no interval and starts no timer, and ends with `view = decks`; when the prompt
was answered it shows the message asking for a deck. -/
theorem startStudySession_without_deck (w : World) (sessionName : Option String)
    (created : Answer SessionReply) (first second : Answer CardReply)
    (hdeck : truthyStr w.st.currentDeck = false) :
    (startStudySession sessionName created first second w).requests = w.requests ∧
    (startStudySession sessionName created first second w).st.currentSession =
      w.st.currentSession ∧
    (startStudySession sessionName created first second w).st.view = View.decks ∧
    (startStudySession sessionName created first second w).nextId = w.nextId ∧
    (∀ h : Nat, h ∈ (startStudySession sessionName created first second w).live →
      h ∈ w.live) ∧
    ((startStudySession sessionName created first second w).st.isTimerRunning = true →
      w.st.isTimerRunning = true) ∧
    (startStudySession sessionName created first second w).alerts =
      w.alerts ++ (match sessionName with
        | none => []
        | some _ => ["Please select a deck before studying."]) := by
  cases sessionName with
  | none =>
    have hc : startStudySessionCreate w.st none created w =
        Created.over (setView View.decks w) := rfl
    simp only [startStudySession, hc]
    have hframe := render_timerOnly w.st.view (setView View.decks w)
    have hstart := render_starts_nothing w.st.view (setView View.decks w)
    refine ⟨hframe.1, hframe.2.2.2.2.2.1, hframe.2.2.2.2.1, hstart.1, hstart.2.1,
      hstart.2.2, ?_⟩
    rw [hframe.2.1]
    simp [setView]
  | some name =>
    have hc : startStudySessionCreate w.st (some name) created w =
        Created.over (setView View.decks
          (alert "Please select a deck before studying." w)) := by
      simp [startStudySessionCreate, hdeck]
    simp only [startStudySession, hc]
    have hframe := render_timerOnly w.st.view
      (setView View.decks (alert "Please select a deck before studying." w))
    have hstart := render_starts_nothing w.st.view
      (setView View.decks (alert "Please select a deck before studying." w))
    refine ⟨hframe.1, hframe.2.2.2.2.2.1, hframe.2.2.2.2.1, hstart.1, hstart.2.1,
      hstart.2.2, ?_⟩
    rw [hframe.2.1]
    rfl

/-- C16 at mount, where no deck is selected, the prompt being left blank. -/
theorem startStudySession_without_deck_witness :
    truthyStr initWorld.st.currentDeck = false ∧
    (startStudySession (some "") createdOk (cardOk cardOne) (cardOk cardOne)
      initWorld).requests = [] ∧
    (startStudySession (some "") createdOk (cardOk cardOne) (cardOk cardOne)
      initWorld).st.currentSession = none :=
  ⟨rfl,
    (startStudySession_without_deck initWorld (some "") createdOk (cardOk cardOne)
      (cardOk cardOne) rfl).1,
    (startStudySession_without_deck initWorld (some "") createdOk (cardOk cardOne)
      (cardOk cardOne) rfl).2.1⟩

/-! ## Stopping and resetting the timer -/

/-- The function `stopTimer` clears the interval its render holds, when that
interval has a positive id. -/
theorem stopTimer_clears_held (snap : AppState) (w : World) (h : Nat)
    (hheld : snap.timerInterval = some h) (hpos : h ≠ 0) :
    (stopTimer snap w).live = w.live.filter (fun i => i != h) ∧
    (stopTimer snap w).st.timerInterval = none := by
  have htruthy : truthyNum (some h) = true := by
    simp [truthyNum, hpos]
  simp [stopTimer, htruthy, hheld, setIsTimerRunning, setTimerInterval, clearInterval]

/-- The function `resetTimer` is `stopTimer` followed by `setTimer(60)`: the
timer is not running and shows 60; `stopTimer` alone leaves the seconds as they
are and the timer not running.  The interval the render holds (its id positive,
as every id `setInterval` returns) is not live afterwards and no interval is
created; an interval the render does not hold is left as it is, so none is
live afterwards only when every live interval is the one the render holds. -/
theorem resetTimer_is_stop_then_sixty (snap : AppState) (w : World) :
    resetTimer snap w = setTimer 60 (stopTimer snap w) ∧
    (resetTimer snap w).st.isTimerRunning = false ∧
    (resetTimer snap w).st.timer = 60 ∧
    (stopTimer snap w).st.isTimerRunning = false ∧
    (stopTimer snap w).st.timer = w.st.timer ∧
    (resetTimer snap w).live = (stopTimer snap w).live ∧
    (resetTimer snap w).nextId = w.nextId ∧
    (∀ h : Nat, snap.timerInterval = some h → h ≠ 0 → h ∉ (resetTimer snap w).live) ∧
    ((∀ h : Nat, h ∈ w.live → snap.timerInterval = some h ∧ h ≠ 0) →
      (resetTimer snap w).live = [] ∧ (stopTimer snap w).live = []) := by
  have hstop := stopTimer_starts_nothing snap w
  have hreset := resetTimer_starts_nothing snap w
  refine ⟨rfl, hreset.2.2.1, hreset.2.2.2, hstop.2.2.1, hstop.2.2.2, rfl, hreset.1, ?_, ?_⟩
  · intro h hheld hpos hmem
    have hlive : (resetTimer snap w).live = w.live.filter (fun i => i != h) :=
      (stopTimer_clears_held snap w h hheld hpos).1
    rw [hlive] at hmem
    have hne := (List.mem_filter.mp hmem).2
    simp at hne
  · intro hall
    have hempty : (stopTimer snap w).live = [] := by
      cases hlive : w.live with
      | nil =>
        apply List.eq_nil_iff_forall_not_mem.mpr
        intro x hx
        have hx2 := hstop.2.1 x hx
        rw [hlive] at hx2
        cases hx2
      | cons a rest =>
        have ha := hall a (by rw [hlive]; exact List.mem_cons_self _ _)
        rw [(stopTimer_clears_held snap w a ha.1 ha.2).1]
        apply List.eq_nil_iff_forall_not_mem.mpr
        intro x hx
        have hx1 := List.mem_filter.mp hx
        have hxa := hall x hx1.1
        have heq : x = a := Option.some.inj (hxa.1.symm.trans ha.1)
        have hne := hx1.2
        simp [heq] at hne
    exact ⟨hempty, hempty⟩

/-- On the timer started at mount interval 1 is live and held by the state, and
`resetTimer` leaves no interval live. -/
theorem resetTimer_is_stop_then_sixty_witness :
    (∀ h : Nat, h ∈ (startTimer initState initWorld).live →
      (startTimer initState initWorld).st.timerInterval = some h ∧ h ≠ 0) ∧
    (resetTimer (startTimer initState initWorld).st (startTimer initState initWorld)).live =
      [] ∧
    (startTimer initState initWorld).st.timerInterval = some 1 ∧ 1 ≠ 0 ∧
    1 ∉ (resetTimer (startTimer initState initWorld).st (startTimer initState initWorld)).live :=
  have hall : ∀ h : Nat, h ∈ (startTimer initState initWorld).live →
      (startTimer initState initWorld).st.timerInterval = some h ∧ h ≠ 0 := by
    intro h hmem
    have h1 : h = 1 := by
      have hlive : (startTimer initState initWorld).live = [1] := by decide
      rw [hlive] at hmem
      exact List.mem_singleton.mp hmem
    rw [h1]
    exact ⟨by decide, by decide⟩
  ⟨hall,
    ((resetTimer_is_stop_then_sixty (startTimer initState initWorld).st
      (startTimer initState initWorld)).2.2.2.2.2.2.2.2 hall).1,
    rfl, by decide,
    (resetTimer_is_stop_then_sixty (startTimer initState initWorld).st
      (startTimer initState initWorld)).2.2.2.2.2.2.2.1 1 rfl (by decide)⟩

/-! ## The create-deck form -/

/-- Dropping from both ends leaves nothing exactly when every element is
dropped. -/
theorem trim_eq_nil_iff (p : Char → Bool) (l : List Char) :
    (l.dropWhile p).rdropWhile p = [] ↔ ∀ x ∈ l, p x = true := by
  constructor
  · intro hnil
    have hall := List.rdropWhile_eq_nil_iff.mp hnil
    by_cases hd : l.dropWhile p = []
    · exact List.dropWhile_eq_nil_iff.mp hd
    · exfalso
      have hhead := List.head_dropWhile_not p l hd
      have hmem := hall _ (List.head_mem hd)
      rw [hhead] at hmem
      cases hmem
  · intro hall
    have hd : l.dropWhile p = [] := List.dropWhile_eq_nil_iff.mpr hall
    rw [hd]
    rfl

/-- What is dropped from the right is a run of dropped elements. -/
theorem rdropWhile_append_rtakeWhile (p : Char → Bool) (l : List Char) :
    l.rdropWhile p ++ l.rtakeWhile p = l := by
  unfold List.rdropWhile List.rtakeWhile
  rw [← List.reverse_append, List.takeWhile_append_dropWhile, List.reverse_reverse]

/-- The list splits into a run of dropped elements, what is kept, and a run of
dropped elements. -/
theorem trim_split (p : Char → Bool) (l : List Char) :
    ∃ pre post : List Char,
      l = pre ++ (l.dropWhile p).rdropWhile p ++ post ∧
      pre.all p = true ∧ post.all p = true := by
  refine ⟨l.takeWhile p, (l.dropWhile p).rtakeWhile p, ?_, ?_, ?_⟩
  · rw [List.append_assoc, rdropWhile_append_rtakeWhile, List.takeWhile_append_dropWhile]
  · rw [List.all_eq_true]
    intro x hx
    exact List.mem_takeWhile_imp hx
  · rw [List.all_eq_true]
    intro x hx
    exact List.mem_rtakeWhile_imp hx

/-- What is kept does not start with a dropped element. -/
theorem trim_head_not (p : Char → Bool) (l : List Char) (c : Char)
    (hc : ((l.dropWhile p).rdropWhile p).head? = some c) : p c = false := by
  obtain ⟨t, ht⟩ := List.rdropWhile_prefix p (l := l.dropWhile p)
  cases hk : (l.dropWhile p).rdropWhile p with
  | nil =>
    rw [hk] at hc
    cases hc
  | cons a rest =>
    rw [hk] at hc ht
    have hca : a = c := Option.some.inj hc
    have hhead : (l.dropWhile p).head? = some a := by
      rw [← ht]
      rfl
    have hnot := List.head?_dropWhile_not p l
    rw [hhead] at hnot
    rw [← hca]
    simpa using hnot

/-- What is kept does not end with a dropped element. -/
theorem trim_getLast_not (p : Char → Bool) (l : List Char) (c : Char)
    (hc : ((l.dropWhile p).rdropWhile p).getLast? = some c) : p c = false := by
  have hne : (l.dropWhile p).rdropWhile p ≠ [] := by
    intro hnil
    rw [hnil] at hc
    cases hc
  have hlast := List.rdropWhile_last_not p (l.dropWhile p) hne
  rw [List.getLast?_eq_getLast _ hne] at hc
  rw [← Option.some.inj hc]
  simpa using hlast

/-- The trimmed name is empty exactly when the name is empty or all white
space. -/
theorem jsTrim_falsy_iff (s : String) :
    truthyStr (some (jsTrim s)) = false ↔ s.toList.all jsWhitespace = true := by
  have hempty : jsTrim s = "" ↔ (s.toList.dropWhile jsWhitespace).rdropWhile jsWhitespace = [] := by
    unfold jsTrim
    constructor
    · intro h
      exact congrArg String.data h
    · intro h
      rw [h]
  simp only [truthyStr, bne_eq_false_iff_eq, hempty, trim_eq_nil_iff, List.all_eq_true]

/-- C18: `handleSubmit` of `CreateDeckModal`.  For a name that is empty or all
white space `onSubmit` is not called and the error asks for a deck name.  For
every other name `onSubmit` is called exactly once, with the trimmed name: the
name without a leading and a trailing run of white space, itself neither
starting nor ending with white space. -/
theorem handleSubmit_validates_name (onSubmitThrows : Bool) (f : CreateDeckForm) :
    (f.deckName.toList.all jsWhitespace = true →
      (handleSubmit onSubmitThrows f).submitted = f.submitted ∧
      (handleSubmit onSubmitThrows f).error = "Please enter a deck name") ∧
    (f.deckName.toList.all jsWhitespace = false →
      (handleSubmit onSubmitThrows f).submitted = f.submitted ++ [jsTrim f.deckName] ∧
      (∃ pre post : List Char,
        f.deckName.toList = pre ++ (jsTrim f.deckName).toList ++ post ∧
        pre.all jsWhitespace = true ∧ post.all jsWhitespace = true) ∧
      (∀ c : Char, (jsTrim f.deckName).toList.head? = some c → jsWhitespace c = false) ∧
      (∀ c : Char, (jsTrim f.deckName).toList.getLast? = some c → jsWhitespace c = false)) := by
  refine ⟨?_, ?_⟩
  · intro hblank
    have hfalsy := (jsTrim_falsy_iff f.deckName).mpr hblank
    simp [handleSubmit, hfalsy]
  · intro hname
    have htruthy : truthyStr (some (jsTrim f.deckName)) = true := by
      cases ht : truthyStr (some (jsTrim f.deckName)) with
      | true => rfl
      | false =>
        rw [(jsTrim_falsy_iff f.deckName).mp ht] at hname
        cases hname
    refine ⟨?_, trim_split jsWhitespace f.deckName.toList,
      trim_head_not jsWhitespace f.deckName.toList,
      trim_getLast_not jsWhitespace f.deckName.toList⟩
    cases onSubmitThrows <;> simp [handleSubmit, htruthy]

/-- C18 on a name of three spaces, blocked, and on the name Spanish typed
between spaces, submitted as Spanish. -/
theorem handleSubmit_validates_name_witness :
    ("   ".toList.all jsWhitespace = true ∧
      (handleSubmit false
        { deckName := "   ", isSubmitting := false, error := "", submitted := [] }).submitted =
        []) ∧
    (" Spanish  ".toList.all jsWhitespace = false ∧
      (handleSubmit false
        { deckName := " Spanish  ", isSubmitting := false, error := "",
          submitted := [] }).submitted = ["Spanish"]) :=
  ⟨⟨by decide,
      ((handleSubmit_validates_name false
        { deckName := "   ", isSubmitting := false, error := "", submitted := [] }).1
        (by decide)).1⟩,
    ⟨by decide,
      ((handleSubmit_validates_name false
        { deckName := " Spanish  ", isSubmitting := false, error := "", submitted := [] }).2
        (by decide)).1.trans (by decide)⟩⟩

/-! ## The retry of the first fetch -/

/-- C19, the code at the failing input: the first fetch is rejected, and the
`catch` of `getNextCard` shows the error and sets the view to `decks` before
rethrowing; the retry brings `cardOne`, which is stored with the back hidden
and rating 10, and the timer is started from 60, but nothing sets the view
back: the flow ends in the deck list. -/
theorem retry_success_ends_in_deck_list :
    (run retryThenCard).world.st.view = View.decks ∧
    (run retryThenCard).world.st.reviewCard = some cardOne ∧
    (run retryThenCard).world.st.showBack = false ∧
    (run retryThenCard).world.st.rating = 10 ∧
    (run retryThenCard).world.st.timer = 60 ∧
    (run retryThenCard).world.st.isTimerRunning = true ∧
    (run retryThenCard).world.alerts = ["Error getting next card: Session not registered"] ∧
    (run retryThenCard).world.requests =
      [Request.createSession "Spanish" none, Request.nextCard "Spanish",
        Request.nextCard "Spanish"] := by
  decide

/-- C20, the code at the failing input: after the session start whose first
fetch was rejected and whose retry succeeded, the view is `decks` while the
timer is running on the live interval 1, and its ticks count down in the deck
list. -/
theorem timer_runs_in_deck_list_after_retry :
    (run retryThenCard).world.st.view = View.decks ∧
    (run retryThenCard).world.st.isTimerRunning = true ∧
    (run retryThenCard).world.st.timerInterval = some 1 ∧
    (run retryThenCard).world.live = [1] ∧
    (run (retryThenCard ++ [Event.tick 1, Event.tick 1, Event.tick 1])).world.st.view =
      View.decks ∧
    (run (retryThenCard ++ [Event.tick 1, Event.tick 1, Event.tick 1])).world.st.timer = 57 := by
  decide

/-- When the first fetch is answered with a success that carries no card, the
interval `startTimer` creates in the same continuation is cleared by the view
effect of the render that follows: the deck list is shown with the timer
stopped at 60 and no interval live. -/
theorem first_fetch_without_card_stops_timer :
    (run firstWithoutCard).world.st.view = View.decks ∧
    (run firstWithoutCard).world.st.isTimerRunning = false ∧
    (run firstWithoutCard).world.st.timer = 60 ∧
    (run firstWithoutCard).world.live = [] ∧
    (run firstWithoutCard).world.requests =
      [Request.createSession "Spanish" none, Request.nextCard "Spanish"] := by
  decide

/-! ## Show Answer -/

/-- When every live interval is the one the render of `stopTimer` holds, with
a positive id, none is live after `stopTimer`. -/
theorem stopTimer_live_nil (snap : AppState) (w : World)
    (hall : ∀ h : Nat, h ∈ w.live → snap.timerInterval = some h ∧ h ≠ 0) :
    (stopTimer snap w).live = [] := by
  cases hlive : w.live with
  | nil =>
    apply List.eq_nil_iff_forall_not_mem.mpr
    intro x hx
    have hx2 := (stopTimer_starts_nothing snap w).2.1 x hx
    rw [hlive] at hx2
    cases hx2
  | cons a rest =>
    have ha := hall a (by rw [hlive]; exact List.mem_cons_self _ _)
    rw [(stopTimer_clears_held snap w a ha.1 ha.2).1]
    apply List.eq_nil_iff_forall_not_mem.mpr
    intro x hx
    have hx1 := List.mem_filter.mp hx
    have hxa := hall x hx1.1
    have heq : x = a := Option.some.inj (hxa.1.symm.trans ha.1)
    have hne := hx1.2
    simp [heq] at hne

/-- The Show Answer action sets `showBack` to true and stops the timer of its
render, and changes nothing else.  The review card, the pending rating, the
current session, the view, the deck, the modal flag, the logs and the seconds
of the timer are as before; the timer is not running, no interval is created
and the interval the render holds (its id positive, as every id `setInterval`
returns) is not live afterwards; an interval the render does not hold is left
as it is, so none is live afterwards only when every live interval is the one
the render holds.  On a state that shows a card front the click is this
action. -/
theorem reveal_shows_back_and_pauses (snap : AppState) (w : World) :
    (reveal snap w).st.showBack = true ∧
    (reveal snap w).st.reviewCard = w.st.reviewCard ∧
    (reveal snap w).st.rating = w.st.rating ∧
    (reveal snap w).st.currentSession = w.st.currentSession ∧
    (reveal snap w).st.view = w.st.view ∧
    (reveal snap w).st.currentDeck = w.st.currentDeck ∧
    (reveal snap w).st.isModalOpen = w.st.isModalOpen ∧
    (reveal snap w).st.timer = w.st.timer ∧
    (reveal snap w).requests = w.requests ∧
    (reveal snap w).alerts = w.alerts ∧
    (reveal snap w).st.isTimerRunning = false ∧
    (reveal snap w).nextId = w.nextId ∧
    (∀ h : Nat, snap.timerInterval = some h → h ≠ 0 → h ∉ (reveal snap w).live) ∧
    ((∀ h : Nat, h ∈ w.live → snap.timerInterval = some h ∧ h ≠ 0) →
      (reveal snap w).live = []) ∧
    (∀ s : Sys, cardShown s.world.st = true → s.world.st.showBack = false →
      step s Event.reveal = { s with world := reveal s.world.st s.world }) := by
  have hframe := stopTimer_timerOnly snap (setShowBack true w)
  have hstop := stopTimer_starts_nothing snap (setShowBack true w)
  refine ⟨hframe.2.2.2.2.2.2.2.1, hframe.2.2.2.2.2.2.1, hframe.2.2.2.2.2.2.2.2.1,
    hframe.2.2.2.2.2.1, hframe.2.2.2.2.1, hframe.2.2.2.2.2.2.2.2.2.1,
    hframe.2.2.2.2.2.2.2.2.2.2, hstop.2.2.2, hframe.1, hframe.2.1, hstop.2.2.1, hstop.1,
    ?_, ?_, ?_⟩
  · intro h hheld hpos hmem
    have hlive : (reveal snap w).live = w.live.filter (fun i => i != h) :=
      (stopTimer_clears_held snap (setShowBack true w) h hheld hpos).1
    rw [hlive] at hmem
    have hne := (List.mem_filter.mp hmem).2
    simp at hne
  · intro hall
    exact stopTimer_live_nil snap (setShowBack true w) hall
  · intro s hshown hfront
    simp [step, hshown, hfront]

/-- On the front of `cardOne` in the session of `toFront` interval 1 is live and
held by the state; after Show Answer the back is shown, the card is the same
and no interval is live. -/
theorem reveal_shows_back_and_pauses_witness :
    (∀ h : Nat, h ∈ (run toFront).world.live →
      (run toFront).world.st.timerInterval = some h ∧ h ≠ 0) ∧
    (reveal (run toFront).world.st (run toFront).world).live = [] ∧
    (run toFront).world.st.timerInterval = some 1 ∧ 1 ≠ 0 ∧
    1 ∉ (reveal (run toFront).world.st (run toFront).world).live ∧
    cardShown (run toFront).world.st = true ∧ (run toFront).world.st.showBack = false ∧
    (step (run toFront) Event.reveal).world.st.showBack = true :=
  have hall : ∀ h : Nat, h ∈ (run toFront).world.live →
      (run toFront).world.st.timerInterval = some h ∧ h ≠ 0 := by
    intro h hmem
    have h1 : h = 1 := by
      have hlive : (run toFront).world.live = [1] := by decide
      rw [hlive] at hmem
      exact List.mem_singleton.mp hmem
    rw [h1]
    exact ⟨by decide, by decide⟩
  ⟨hall,
    (reveal_shows_back_and_pauses (run toFront).world.st (run toFront).world).2.2.2.2.2.2.2.2.2.2.2.2.2.1
      hall,
    by decide, by decide,
    (reveal_shows_back_and_pauses (run toFront).world.st
      (run toFront).world).2.2.2.2.2.2.2.2.2.2.2.2.1 1 (by decide) (by decide),
    by decide, by decide,
    (congrArg (fun x : Sys => x.world.st.showBack)
      ((reveal_shows_back_and_pauses (run toFront).world.st
        (run toFront).world).2.2.2.2.2.2.2.2.2.2.2.2.2.2 (run toFront) (by decide)
        (by decide))).trans
      (reveal_shows_back_and_pauses (run toFront).world.st (run toFront).world).1⟩

/-! ## Answers that arrive late -/

/-- C21 as stated fails.  The review request for `cardOne` is in flight when
End Session is clicked; the session is ended, the statistics are shown and the
timer is stopped.  The answer then arrives with `cardTwo` and is applied:
the card is replaced, the back is hidden and the timer is started on a new
interval.  Likewise the answer to a second review request issued for `cardOne`
is applied after `cardTwo` has become the current card. -/
theorem late_review_answer_is_applied :
    (run submitInFlight).inflight = [(run (toFront ++ [Event.reveal])).world.st] ∧
    endedWhileInFlight.st.currentSession = none ∧
    endedWhileInFlight.st.reviewCard = some cardOne ∧
    endedWhileInFlight.st.showBack = true ∧
    endedWhileInFlight.st.isTimerRunning = false ∧
    endedWhileInFlight.live = [] ∧
    (reviewAnswered (run (toFront ++ [Event.reveal])).world.st (cardOk cardTwo)
      endedWhileInFlight).st.reviewCard = some cardTwo ∧
    (reviewAnswered (run (toFront ++ [Event.reveal])).world.st (cardOk cardTwo)
      endedWhileInFlight).st.showBack = false ∧
    (reviewAnswered (run (toFront ++ [Event.reveal])).world.st (cardOk cardTwo)
      endedWhileInFlight).st.isTimerRunning = true ∧
    (reviewAnswered (run (toFront ++ [Event.reveal])).world.st (cardOk cardTwo)
      endedWhileInFlight).live = [2] ∧
    (run cardChangedWhileInFlight).world.st.reviewCard = some cardTwo ∧
    (run cardChangedWhileInFlight).inflight.map (fun snap => snap.reviewCard) =
      [some cardOne] ∧
    (run (cardChangedWhileInFlight ++
      [Event.submitAnswer (cardOk cardOne)])).world.st.reviewCard = some cardOne := by
  decide

/-- The function `startTimer` leaves the seconds, and leaves the timer running
exactly when its render had it stopped or the timer was running. -/
theorem startTimer_timer (snap : AppState) (w : World) :
    (startTimer snap w).st.timer = w.st.timer ∧
    (startTimer snap w).st.isTimerRunning = (!snap.isTimerRunning || w.st.isTimerRunning) := by
  by_cases hr : snap.isTimerRunning = true
  · simp [startTimer, hr]
  · simp [startTimer, hr, setTimerInterval, setIsTimerRunning]

/-- A render whose view is the view of the render before runs no effect. -/
theorem render_same_view (prev : View) (w : World) (hv : w.st.view = prev) :
    render prev w = w := by
  simp [render, hv]

/-- A render in which the view has changed to `decks` stops the timer at 60
and touches nothing but the timer. -/
theorem render_changed_to_decks (prev : View) (w : World) (hv : w.st.view = View.decks)
    (hprev : prev ≠ View.decks) :
    (render prev w).st.timer = 60 ∧ (render prev w).st.isTimerRunning = false := by
  have hne : ¬ View.decks = prev := fun h => hprev h.symm
  have hreview : (View.decks != View.review) = true := by decide
  have hreset := resetTimer_starts_nothing w.st (stopTimer w.st w)
  simp only [render, viewEffect, hv, hne, hreview, if_false, if_true]
  exact ⟨hreset.2.2.2, hreset.2.2.1⟩

/-- The answer to a fetch that carries no card leaves the card, the back, the
rating and the timer, and sets the view to `decks`. -/
theorem getNextCardAnswer_without_card (ans : Answer CardReply) (w : World)
    (hans : ∀ data : CardReply, ans = Answer.resolved data →
      (data.success && data.next_card.isSome) = false) :
    SameReview w (getNextCardAnswer ans w).1 ∧ (getNextCardAnswer ans w).1.st.view = View.decks := by
  cases ans with
  | resolved data =>
    have hno := hans data rfl
    simp only [getNextCardAnswer, hno, Bool.false_eq_true, if_false]
    exact ⟨⟨rfl, rfl, rfl, rfl, rfl, rfl, rfl⟩, rfl⟩
  | rejected r q m => exact ⟨⟨rfl, rfl, rfl, rfl, rfl, rfl, rfl⟩, rfl⟩

/-- The answer to a review that carries no card leaves the card, the back, the
rating and the timer, and leaves the view or sets it to `decks`. -/
theorem handleReviewAnswer_without_card (snap : AppState) (ans : Answer CardReply) (w : World)
    (hans : ∀ data : CardReply, ans = Answer.resolved data →
      (data.success && data.next_card.isSome) = false) :
    SameReview w (handleReviewAnswer snap ans w) ∧
    ((handleReviewAnswer snap ans w).st.view = w.st.view ∨
      (handleReviewAnswer snap ans w).st.view = View.decks) := by
  cases ans with
  | resolved data =>
    have hno := hans data rfl
    simp only [handleReviewAnswer, hno, Bool.false_eq_true, if_false]
    split
    · exact ⟨⟨rfl, rfl, rfl, rfl, rfl, rfl, rfl⟩, Or.inr rfl⟩
    · exact ⟨⟨rfl, rfl, rfl, rfl, rfl, rfl, rfl⟩, Or.inl rfl⟩
  | rejected r q m =>
    cases r with
    | none => exact ⟨⟨rfl, rfl, rfl, rfl, rfl, rfl, rfl⟩, Or.inl rfl⟩
    | some resp =>
      simp only [handleReviewAnswer]
      split
      · exact ⟨⟨rfl, rfl, rfl, rfl, rfl, rfl, rfl⟩, Or.inr rfl⟩
      · exact ⟨⟨rfl, rfl, rfl, rfl, rfl, rfl, rfl⟩, Or.inl rfl⟩

/-- What follows the answer to a fetch that carries no card, before the render:
the card, the back and the rating are left and the view is `decks`. -/
theorem fetch_continuation_without_card (snap : AppState) (retry : Bool)
    (ans : Answer CardReply) (w : World)
    (hans : ∀ data : CardReply, ans = Answer.resolved data →
      (data.success && data.next_card.isSome) = false) :
    ∃ w1 : World, fetchAnswered snap retry ans w = render w.st.view w1 ∧
      w1.st.reviewCard = w.st.reviewCard ∧ w1.st.showBack = w.st.showBack ∧
      w1.st.rating = w.st.rating ∧ w1.st.view = View.decks := by
  obtain ⟨hsame, hview⟩ := getNextCardAnswer_without_card ans w hans
  unfold fetchAnswered
  simp only
  by_cases hthrew : (getNextCardAnswer ans w).2 = true
  · simp only [hthrew, if_true]
    cases retry with
    | false => exact ⟨_, rfl, hsame.1, hsame.2.1, hsame.2.2.1, hview⟩
    | true =>
      cases ans with
      | resolved data => exact ⟨_, rfl, hsame.1, hsame.2.1, hsame.2.2.1, hview⟩
      | rejected r q m => exact ⟨_, rfl, hsame.1, hsame.2.1, hsame.2.2.1, rfl⟩
  · simp only [hthrew, if_false]
    have hstart := startTimer_timerOnly snap (getNextCardAnswer ans w).1
    exact ⟨_, rfl, hstart.2.2.2.2.2.2.1.trans hsame.1,
      hstart.2.2.2.2.2.2.2.1.trans hsame.2.1,
      hstart.2.2.2.2.2.2.2.2.1.trans hsame.2.2.1, hstart.2.2.2.2.1.trans hview⟩

/-- The retry of `startStudySession` followed by its render is the request
followed by `fetchAnswered` as a retry. -/
theorem fetchAnswered_retry (snap : AppState) (second : Answer CardReply) (w : World)
    (hdeck : truthyStr snap.currentDeck = true) :
    render w.st.view (startStudySessionRetry snap second w) =
      fetchAnswered snap true second (send (Request.nextCard (snap.currentDeck.getD "")) w) := by
  cases second with
  | resolved data =>
    simp only [startStudySessionRetry, getNextCard, fetchAnswered, hdeck, Bool.not_true,
      Bool.false_eq_true, if_false]
    rfl
  | rejected r q m =>
    simp only [startStudySessionRetry, getNextCard, fetchAnswered, hdeck, Bool.not_true,
      Bool.false_eq_true, if_false]
    rfl

/-- The first fetch of `startStudySession` followed by its render is the
request, sent in the review view, followed by `fetchAnswered` as a first
fetch. -/
theorem fetchAnswered_first (snap : AppState) (first : Answer CardReply) (w : World)
    (hdeck : truthyStr snap.currentDeck = true) :
    render View.review (startStudySessionFirst snap first w).1 =
      fetchAnswered snap false first
        (send (Request.nextCard (snap.currentDeck.getD ""))
          (resetTimer snap (setView View.review w))) := by
  have hview : (send (Request.nextCard (snap.currentDeck.getD ""))
      (resetTimer snap (setView View.review w))).st.view = View.review :=
    (resetTimer_timerOnly snap (setView View.review w)).2.2.2.2.1
  cases first with
  | resolved data =>
    simp only [startStudySessionFirst, getNextCard, fetchAnswered, hdeck, Bool.not_true,
      Bool.false_eq_true, if_false, hview]
    by_cases hok : (data.success && data.next_card.isSome) = true
    · simp only [getNextCardAnswer, hok, if_true, Bool.false_eq_true, if_false]
    · have hno : (data.success && data.next_card.isSome) = false := by
        simpa using hok
      simp only [getNextCardAnswer, hno, Bool.false_eq_true, if_false]
  | rejected r q m =>
    simp only [startStudySessionFirst, getNextCard, fetchAnswered, hdeck, Bool.not_true,
      Bool.false_eq_true, if_false, hview]
    rfl

/-- The answer to a fetch that carries no card, arriving in the deck list: the
view stays and the render runs no effect.  A rejected answer leaves the timer;
an answer with a body is followed by `startTimer`, which keeps the seconds and
starts the timer when its render had it stopped. -/
theorem fetchAnswered_without_card_in_decks (snap : AppState) (retry : Bool)
    (ans : Answer CardReply) (w : World)
    (hans : ∀ data : CardReply, ans = Answer.resolved data →
      (data.success && data.next_card.isSome) = false)
    (hdecks : w.st.view = View.decks) :
    (fetchAnswered snap retry ans w).st.timer = w.st.timer ∧
    ((∃ data : CardReply, ans = Answer.resolved data) →
      (fetchAnswered snap retry ans w).st.isTimerRunning =
        (!snap.isTimerRunning || w.st.isTimerRunning)) ∧
    ((∀ data : CardReply, ans ≠ Answer.resolved data) →
      SameReview w (fetchAnswered snap retry ans w)) := by
  cases ans with
  | resolved data =>
    have hno := hans data rfl
    have hstart := startTimer_timer snap (setView View.decks
      (alert "Error: Could not load next card. The response format was invalid." w))
    have hview : (startTimer snap (setView View.decks
        (alert "Error: Could not load next card. The response format was invalid." w))).st.view =
        w.st.view := by
      rw [(startTimer_timerOnly snap _).2.2.2.2.1, hdecks]
      rfl
    have hfetch : fetchAnswered snap retry (Answer.resolved data) w =
        startTimer snap (setView View.decks
          (alert "Error: Could not load next card. The response format was invalid." w)) := by
      simp only [fetchAnswered, getNextCardAnswer, hno, Bool.false_eq_true, if_false]
      exact render_same_view _ _ hview
    rw [hfetch]
    exact ⟨hstart.1, fun _ => hstart.2, fun hne => absurd rfl (hne data)⟩
  | rejected r q m =>
    have hfetch : fetchAnswered snap retry (Answer.rejected r q m) w =
        (if retry then startCatch r q (getNextCardAnswer (Answer.rejected r q m) w).1
          else (getNextCardAnswer (Answer.rejected r q m) w).1) := by
      cases retry with
      | false =>
        simp only [fetchAnswered, getNextCardAnswer, if_true, Bool.false_eq_true, if_false]
        exact render_same_view _ _ hdecks.symm
      | true =>
        simp only [fetchAnswered, getNextCardAnswer, if_true]
        exact render_same_view _ _ hdecks.symm
    rw [hfetch]
    cases retry with
    | false =>
      refine ⟨rfl, ?_, fun _ => ⟨rfl, rfl, rfl, rfl, rfl, rfl, rfl⟩⟩
      intro h
      obtain ⟨data, hd⟩ := h
      cases hd
    | true =>
      refine ⟨rfl, ?_, fun _ => ⟨rfl, rfl, rfl, rfl, rfl, rfl, rfl⟩⟩
      intro h
      obtain ⟨data, hd⟩ := h
      cases hd

/-- C21 amended: no answer is checked against the session or the card its
request was issued for; whatever the current session and the current card are
when it arrives, the component handles it in the same way.  An answer that
carries a card is applied: the review card is replaced, the back is hidden and
the rating is put to 10; after a review the timer is put to 60 and is running
exactly when the render of the click had it stopped, after a fetch the timer
keeps its seconds and is started when the render of the click had it stopped.
An answer without a card, rejected or not, leaves the review card, the
revealed flag and the rating as they are.  An answer to a review that leaves
the view leaves the timer as well; an answer that changes the view to `decks`,
as every such answer to a fetch does outside the deck list, is followed by the
view effect, which stops the timer and puts it to 60.  An answer to a fetch
that arrives in the deck list keeps the seconds: a rejected one leaves the
timer, one with a body is followed by `startTimer`, which starts the timer when
the render of the click had it stopped. -/
theorem answers_applied_whatever_is_current (snap : AppState) (retry : Bool) (w : World)
    (c : Card) (err : Option String) :
    ((reviewAnswered snap
        (Answer.resolved { success := true, next_card := some c, error := err }) w).st.reviewCard =
        some c ∧
      (reviewAnswered snap
        (Answer.resolved { success := true, next_card := some c, error := err }) w).st.showBack =
        false ∧
      (reviewAnswered snap
        (Answer.resolved { success := true, next_card := some c, error := err }) w).st.rating =
        10 ∧
      (reviewAnswered snap
        (Answer.resolved { success := true, next_card := some c, error := err }) w).st.timer =
        60 ∧
      (reviewAnswered snap
        (Answer.resolved { success := true, next_card := some c, error := err })
        w).st.isTimerRunning = !snap.isTimerRunning) ∧
    ((fetchAnswered snap retry
        (Answer.resolved { success := true, next_card := some c, error := err }) w).st.reviewCard =
        some c ∧
      (fetchAnswered snap retry
        (Answer.resolved { success := true, next_card := some c, error := err }) w).st.showBack =
        false ∧
      (fetchAnswered snap retry
        (Answer.resolved { success := true, next_card := some c, error := err }) w).st.rating =
        10 ∧
      (fetchAnswered snap retry
        (Answer.resolved { success := true, next_card := some c, error := err }) w).st.timer =
        w.st.timer ∧
      (fetchAnswered snap retry
        (Answer.resolved { success := true, next_card := some c, error := err })
        w).st.isTimerRunning = (!snap.isTimerRunning || w.st.isTimerRunning)) ∧
    (∀ ans : Answer CardReply,
      (∀ data : CardReply, ans = Answer.resolved data →
        (data.success && data.next_card.isSome) = false) →
      ((reviewAnswered snap ans w).st.reviewCard = w.st.reviewCard ∧
        (reviewAnswered snap ans w).st.showBack = w.st.showBack ∧
        (reviewAnswered snap ans w).st.rating = w.st.rating ∧
        ((reviewAnswered snap ans w).st.view = w.st.view →
          SameReview w (reviewAnswered snap ans w)) ∧
        ((reviewAnswered snap ans w).st.view ≠ w.st.view →
          (reviewAnswered snap ans w).st.view = View.decks ∧
          (reviewAnswered snap ans w).st.timer = 60 ∧
          (reviewAnswered snap ans w).st.isTimerRunning = false)) ∧
      ((fetchAnswered snap retry ans w).st.reviewCard = w.st.reviewCard ∧
        (fetchAnswered snap retry ans w).st.showBack = w.st.showBack ∧
        (fetchAnswered snap retry ans w).st.rating = w.st.rating ∧
        (fetchAnswered snap retry ans w).st.view = View.decks ∧
        (w.st.view ≠ View.decks →
          (fetchAnswered snap retry ans w).st.timer = 60 ∧
          (fetchAnswered snap retry ans w).st.isTimerRunning = false) ∧
        (w.st.view = View.decks →
          (fetchAnswered snap retry ans w).st.timer = w.st.timer ∧
          ((∃ data : CardReply, ans = Answer.resolved data) →
            (fetchAnswered snap retry ans w).st.isTimerRunning =
              (!snap.isTimerRunning || w.st.isTimerRunning)) ∧
          ((∀ data : CardReply, ans ≠ Answer.resolved data) →
            SameReview w (fetchAnswered snap retry ans w))))) := by
  refine ⟨?_, ?_, ?_⟩
  · have hframe := startTimer_timerOnly snap (setRating 10 (setShowBack false
      (setReviewCard (some c) (resetTimer snap (stopTimer snap w)))))
    have htimer := startTimer_timer snap (setRating 10 (setShowBack false
      (setReviewCard (some c) (resetTimer snap (stopTimer snap w)))))
    have hstopped : (resetTimer snap (stopTimer snap w)).st.isTimerRunning = false :=
      (resetTimer_starts_nothing snap (stopTimer snap w)).2.2.1
    have hinner : (resetTimer snap (stopTimer snap w)).st.view = w.st.view :=
      ((stopTimer_timerOnly snap w).trans (resetTimer_timerOnly snap _)).2.2.2.2.1
    have hhandler : handleReviewAnswer snap
        (Answer.resolved { success := true, next_card := some c, error := err }) w =
        startTimer snap (setRating 10 (setShowBack false
          (setReviewCard (some c) (resetTimer snap (stopTimer snap w))))) := by
      simp only [handleReviewAnswer, Option.isSome_some, Bool.and_self, if_true]
    have hview : (startTimer snap (setRating 10 (setShowBack false
        (setReviewCard (some c) (resetTimer snap (stopTimer snap w)))))).st.view = w.st.view :=
      hframe.2.2.2.2.1.trans hinner
    simp only [reviewAnswered, hhandler]
    rw [render_same_view _ _ hview]
    refine ⟨hframe.2.2.2.2.2.2.1, hframe.2.2.2.2.2.2.2.1, hframe.2.2.2.2.2.2.2.2.1,
      htimer.1, ?_⟩
    rw [htimer.2]
    show (!snap.isTimerRunning || (resetTimer snap (stopTimer snap w)).st.isTimerRunning) = _
    rw [hstopped]
    simp
  · have hframe := startTimer_timerOnly snap (setRating 10 (setShowBack false
      (setReviewCard (some c) w)))
    have htimer := startTimer_timer snap (setRating 10 (setShowBack false
      (setReviewCard (some c) w)))
    have hfetch : fetchAnswered snap retry
        (Answer.resolved { success := true, next_card := some c, error := err }) w =
        render w.st.view (startTimer snap (setRating 10 (setShowBack false
          (setReviewCard (some c) w)))) := by
      simp [fetchAnswered, getNextCardAnswer]
    have hview : (startTimer snap (setRating 10 (setShowBack false
        (setReviewCard (some c) w)))).st.view = w.st.view := hframe.2.2.2.2.1
    rw [hfetch, render_same_view _ _ hview]
    exact ⟨hframe.2.2.2.2.2.2.1, hframe.2.2.2.2.2.2.2.1, hframe.2.2.2.2.2.2.2.2.1,
      htimer.1, htimer.2⟩
  · intro ans hans
    refine ⟨?_, ?_⟩
    · obtain ⟨hsame, hview⟩ := handleReviewAnswer_without_card snap ans w hans
      have hframe := render_timerOnly w.st.view (handleReviewAnswer snap ans w)
      refine ⟨hframe.2.2.2.2.2.2.1.trans hsame.1, hframe.2.2.2.2.2.2.2.1.trans hsame.2.1,
        hframe.2.2.2.2.2.2.2.2.1.trans hsame.2.2.1, ?_, ?_⟩
      · intro hstay
        have hstay2 : (handleReviewAnswer snap ans w).st.view = w.st.view :=
          hframe.2.2.2.2.1.symm.trans hstay
        show SameReview w (render w.st.view (handleReviewAnswer snap ans w))
        rw [render_same_view _ _ hstay2]
        exact hsame
      · intro hleft
        have hleft2 : (handleReviewAnswer snap ans w).st.view ≠ w.st.view := by
          intro h
          exact hleft (hframe.2.2.2.2.1.trans h)
        have hdecks : (handleReviewAnswer snap ans w).st.view = View.decks := by
          rcases hview with h | h
          · exact absurd h hleft2
          · exact h
        have hprev : w.st.view ≠ View.decks := by
          intro h
          exact hleft2 (hdecks.trans h.symm)
        have heffect := render_changed_to_decks w.st.view _ hdecks hprev
        exact ⟨hframe.2.2.2.2.1.trans hdecks, heffect.1, heffect.2⟩
    · obtain ⟨w1, hy, hcard, hback, hrating, hdecks⟩ :=
        fetch_continuation_without_card snap retry ans w hans
      have hframe := render_timerOnly w.st.view w1
      have hin := fetchAnswered_without_card_in_decks snap retry ans w hans
      rw [hy] at hin ⊢
      refine ⟨hframe.2.2.2.2.2.2.1.trans hcard, hframe.2.2.2.2.2.2.2.1.trans hback,
        hframe.2.2.2.2.2.2.2.2.1.trans hrating, hframe.2.2.2.2.1.trans hdecks, ?_, hin⟩
      intro hprev
      exact render_changed_to_decks w.st.view w1 hdecks hprev

/-- C21 amended, on the world in which the session was ended while the review
request was in flight, the statistics being shown: the answer with `cardTwo`
puts `cardTwo`; a rejected answer of status 500 leaves the card, the back and
the rating and changes the view to `decks`, with the timer stopped at 60; a
rejected answer of status 404 leaves the view and the timer as well. -/
theorem answers_applied_whatever_is_current_witness :
    (∀ data : CardReply, serverError = Answer.resolved data →
      (data.success && data.next_card.isSome) = false) ∧
    (∀ data : CardReply, notFound = Answer.resolved data →
      (data.success && data.next_card.isSome) = false) ∧
    (reviewAnswered (run (toFront ++ [Event.reveal])).world.st
      (Answer.resolved { success := true, next_card := some cardTwo, error := none })
      endedWhileInFlight).st.reviewCard = some cardTwo ∧
    (reviewAnswered (run (toFront ++ [Event.reveal])).world.st serverError
      endedWhileInFlight).st.reviewCard = endedWhileInFlight.st.reviewCard ∧
    (reviewAnswered (run (toFront ++ [Event.reveal])).world.st serverError
      endedWhileInFlight).st.view ≠ endedWhileInFlight.st.view ∧
    (reviewAnswered (run (toFront ++ [Event.reveal])).world.st serverError
      endedWhileInFlight).st.timer = 60 ∧
    (reviewAnswered (run (toFront ++ [Event.reveal])).world.st notFound
      endedWhileInFlight).st.view = endedWhileInFlight.st.view ∧
    SameReview endedWhileInFlight
      (reviewAnswered (run (toFront ++ [Event.reveal])).world.st notFound
        endedWhileInFlight) ∧
    endedWhileInFlight.st.view ≠ View.decks ∧
    (fetchAnswered (run (toFront ++ [Event.reveal])).world.st false notFound
      endedWhileInFlight).st.isTimerRunning = false :=
  have h500 : ∀ data : CardReply, serverError = Answer.resolved data →
      (data.success && data.next_card.isSome) = false := by
    intro data hdata
    cases hdata
  have h404 : ∀ data : CardReply, notFound = Answer.resolved data →
      (data.success && data.next_card.isSome) = false := by
    intro data hdata
    cases hdata
  ⟨h500, h404,
    (answers_applied_whatever_is_current (run (toFront ++ [Event.reveal])).world.st false
      endedWhileInFlight cardTwo none).1.1,
    ((answers_applied_whatever_is_current (run (toFront ++ [Event.reveal])).world.st false
      endedWhileInFlight cardTwo none).2.2 serverError h500).1.1,
    by decide,
    (((answers_applied_whatever_is_current (run (toFront ++ [Event.reveal])).world.st false
      endedWhileInFlight cardTwo none).2.2 serverError h500).1.2.2.2.2 (by decide)).2.1,
    by decide,
    ((answers_applied_whatever_is_current (run (toFront ++ [Event.reveal])).world.st false
      endedWhileInFlight cardTwo none).2.2 notFound h404).1.2.2.2.1 (by decide),
    by decide,
    (((answers_applied_whatever_is_current (run (toFront ++ [Event.reveal])).world.st false
      endedWhileInFlight cardTwo none).2.2 notFound h404).2.2.2.2.2.1 (by decide)).2⟩

/-! ## Navigating without a bridge -/

/-- Without a bridge the listeners of the navigation patch do nothing, however
many are installed. -/
theorem navigationPatchClick_without_bridge (installed : Nat) (w : World) :
    (navigationPatchClick none)^[installed] w = w := by
  induction installed with
  | zero => rfl
  | succ n ih =>
    rw [Function.iterate_succ_apply', ih]
    rfl

/-- C15: when the host bridge is absent the navigation guard passes every
navigation through.  For every button of the navigation bar and every state,
the click sets the view to the destination of the button; the listeners of the
navigation patch, which test for the bridge first, do nothing: no call is made
on the bridge, so neither a confirmation nor an end of session, no request is
sent, nothing is shown, the current session is as before, and the click is the
`setView` of the button followed by its render. -/
theorem navigation_without_bridge_passes_through (installed : Nat) (b : NavButton)
    (w : World) :
    navButtonClick none installed b w = render w.st.view (setView b.view w) ∧
    (navButtonClick none installed b w).st.view = b.view ∧
    (navButtonClick none installed b w).hostCalls = w.hostCalls ∧
    (navButtonClick none installed b w).requests = w.requests ∧
    (navButtonClick none installed b w).alerts = w.alerts ∧
    (navButtonClick none installed b w).st.currentSession = w.st.currentSession ∧
    (navButtonClick none installed b w).st.reviewCard = w.st.reviewCard := by
  have hclick : navButtonClick none installed b w = render w.st.view (setView b.view w) :=
    navigationPatchClick_without_bridge installed _
  have hframe := render_timerOnly w.st.view (setView b.view w)
  rw [hclick]
  exact ⟨rfl, hframe.2.2.2.2.1, hframe.2.2.1, hframe.1, hframe.2.1, hframe.2.2.2.2.2.1,
    hframe.2.2.2.2.2.2.1⟩

/-! ## An interval the state does not hold -/

/-- C17, the code at the failing input: after `submitThenRestart` the intervals
2 and 3 are live and the state holds 3.  The reset button runs `resetTimer`:
the timer shows 60 and is not running, but only interval 3 is cleared;
interval 2 is still live and its tick takes a second off the stopped timer.
The timer button, `stopTimer` here, leaves interval 2 live as well. -/
theorem resetTimer_leaves_unheld_interval_live :
    (run submitThenRestart).world.st.view = View.review ∧
    (run submitThenRestart).world.live = [2, 3] ∧
    (run submitThenRestart).world.st.timerInterval = some 3 ∧
    (run (submitThenRestart ++ [Event.resetButton])).world.st.isTimerRunning = false ∧
    (run (submitThenRestart ++ [Event.resetButton])).world.st.timer = 60 ∧
    (run (submitThenRestart ++ [Event.resetButton])).world.live = [2] ∧
    (run (submitThenRestart ++ [Event.resetButton, Event.tick 2])).world.st.timer = 59 ∧
    (run (submitThenRestart ++
      [Event.resetButton, Event.tick 2])).world.st.isTimerRunning = false ∧
    (run (submitThenRestart ++ [Event.timerButton])).world.st.isTimerRunning = false ∧
    (run (submitThenRestart ++ [Event.timerButton])).world.live = [2] := by
  decide

/-- C22, the code at the failing input: after `submitThenRestart` the front of
`cardTwo` is shown and the intervals 2 and 3 are live, the state holding 3.
Show Answer shows the back and leaves the card, the rating, the session, the
view and the seconds, and the timer is not running, but only interval 3 is
cleared; interval 2 is still live and its tick takes a second off the paused
timer. -/
theorem reveal_leaves_unheld_interval_live :
    cardShown (run submitThenRestart).world.st = true ∧
    (run submitThenRestart).world.st.showBack = false ∧
    (run submitThenRestart).world.st.reviewCard = some cardTwo ∧
    (run submitThenRestart).world.live = [2, 3] ∧
    (run (submitThenRestart ++ [Event.reveal])).world.st.showBack = true ∧
    (run (submitThenRestart ++ [Event.reveal])).world.st.reviewCard = some cardTwo ∧
    (run (submitThenRestart ++ [Event.reveal])).world.st.view = View.review ∧
    (run (submitThenRestart ++ [Event.reveal])).world.st.timer = 60 ∧
    (run (submitThenRestart ++ [Event.reveal])).world.st.isTimerRunning = false ∧
    (run (submitThenRestart ++ [Event.reveal])).world.live = [2] ∧
    (run (submitThenRestart ++ [Event.reveal, Event.tick 2])).world.st.timer = 59 ∧
    (run (submitThenRestart ++ [Event.reveal, Event.tick 2])).world.st.isTimerRunning =
      false := by
  decide

/-- With the bridge present a click on a button of the navigation bar still
sets the view, whatever the bridge answers: the listeners of the navigation
patch only call the bridge. -/
theorem navButtonClick_sets_view (api : Option HostBridge) (installed : Nat) (b : NavButton)
    (w : World) : (navButtonClick api installed b w).st.view = b.view := by
  have hpatch : ∀ x : World, (navigationPatchClick api x).st = x.st := by
    intro x
    cases api with
    | none => rfl
    | some bridge =>
      cases ha : bridge.active <;> cases hc : bridge.confirm <;>
        simp [navigationPatchClick, ha, hc, hostCall]
  have hiter : ∀ (n : Nat) (x : World), ((navigationPatchClick api)^[n] x).st = x.st := by
    intro n
    induction n with
    | zero => intro x; rfl
    | succ k ih =>
      intro x
      rw [Function.iterate_succ_apply', hpatch, ih]
  unfold navButtonClick
  rw [hiter]
  exact (render_timerOnly w.st.view (setView b.view w)).2.2.2.2.1

end Flashcards
